import Mathlib

/-!
# pod-memory-hog-exec: the fault-injection orchestrator

A shallow embedding of `chaoslib/litmus/pod-memory-hog-exec/lib/pod-memory-hog-exec.go`.

The Go code is concurrent and effectful.  It is embedded as pure functions that
return the list of effects they perform (in program order) together with the way
the call ends.  The sources of nondeterminism are inputs of the model:

* `Env.injectPending` : whether a signal is waiting in the global `inject` channel
  when the pre-run `select` is executed;
* the select script (`List SelectCase`): the case taken by each successive
  execution of the supervision `select`.  A stress goroutine sends exactly one
  value and `time.After` always fires, so a finite script followed by the firing
  of the timer covers every execution;
* `Env.exec` : the result of the n-th `litmusexec.Exec` call of the reverter;
* `Env.runProbes`, `Env.getPodList` : results of the collaborators.

Logging, tracing spans and the length of time waited are not part of the model.
-/

namespace MemoryHogExec

/-! ## Data model -/

/-- One entry of `pod.Spec.Containers`. -/
structure Container where
  Name : String
deriving DecidableEq, Repr

/-- The fields of `corev1.Pod` read by the orchestrator. -/
structure Pod where
  Name : String
  Namespace : String
  Containers : List Container
deriving DecidableEq, Repr

/-- The error codes of package `cerrors` used in this file. -/
inductive ErrorType where
  | ErrorTypeTargetSelection
  | ErrorTypeGeneric
  | ErrorTypeChaosInject
  | ErrorTypeChaosRevert
  | ErrorTypeExperimentAborted
deriving DecidableEq, Repr

/-- Go `error` values that the orchestrator builds or passes on. -/
inductive GoError where
  /-- A `cerrors.Error` with its `ErrorCode`, `Target` and `Reason`. -/
  | Error (ErrorCode : ErrorType) (Target : String) (Reason : String)
  /-- A `cerrors.PreserveError` with its `ErrString`. -/
  | PreserveError (ErrString : String)
  /-- The value of `stacktrace.Propagate(cause, msg)`. -/
  | Propagate (cause : GoError) (msg : String)
  /-- An error produced by a collaborator (`probe.RunProbes`, `common.GetPodList`). -/
  | External (text : String)
deriving DecidableEq, Repr

/-- The fields of `experimentTypes.ExperimentDetails` read or written here. -/
structure ExperimentDetails where
  ExperimentName : String
  EngineName : String
  ChaosDuration : Int
  MemoryConsumption : Int
  TargetContainer : String
  IsTargetContainerProvided : Bool
  ChaosKillCmd : String
  Sequence : String
  TargetPods : String
deriving DecidableEq, Repr

/-- Of `types.ResultDetails` only the number of configured probes is read. -/
structure ResultDetails where
  ProbeDetails : List String
deriving DecidableEq, Repr

/-- Of `types.ChaosDetails` the phase and the nil-ness of `AppDetail` are read. -/
structure ChaosDetails where
  Phase : String
  AppDetailIsNil : Bool
deriving DecidableEq, Repr

/-- The result `(out, err)` of a `litmusexec.Exec` call: its output and whether `err != nil`. -/
structure ExecResult where
  out : String
  failed : Bool
deriving DecidableEq, Repr

/-- The case taken by one execution of the supervision `select`:
a value received from `stressErr` (`none` is a nil error, `some msg` an error
whose `Error()` text is `msg`), a signal from `signChan`, or the timer `endTime`. -/
inductive SelectCase where
  | stressErr (err : Option String)
  | signChan
  | endTime
deriving DecidableEq, Repr

/-- The observable actions of the orchestrator, in program order. -/
inductive Effect where
  /-- `probe.RunProbes(..., "DuringChaos", ...)`. -/
  | runProbes
  /-- The pre-run `select` took `case <-inject`. -/
  | recvInject
  /-- `time.Sleep(seconds * time.Second)`. -/
  | sleep (seconds : Nat)
  /-- `types.SetEngineEventAttributes` followed by `events.GenerateEvents`. -/
  | generateEvents (msg : String)
  /-- The statement `go stressMemory(MemoryConsumption, containerName, podName, namespace, ...)`. -/
  | goStressMemory (MemoryConsumption containerName podName ns : String)
  /-- The call `common.SetTargets(target, chaosStatus, kind, chaosDetails)`. -/
  | setTargets (target chaosStatus kind : String)
  /-- The supervision `select` received `err` from `stressErr`. -/
  | recvStressErr (err : Option String)
  /-- The supervision `select` received a signal from `signChan`. -/
  | recvSignChan
  /-- The supervision `select` received from the timer `endTime`. -/
  | recvEndTime
  /-- The call `litmusexec.Exec` of `killStressMemorySerial`, with the exec attributes and the command. -/
  | execKill (containerName podName ns : String) (cmd : List String)
  /-- The call `types.SetResultAfterCompletion(resultDetails, verdict, phase, failStep, errCode)`. -/
  | setResultAfterCompletion (verdict phase failStep errCode : String)
  /-- The call `result.ChaosResult(chaosDetails, clients, resultDetails, state)`. -/
  | chaosResult (state : String)
deriving DecidableEq, Repr

/-- How a call of one of the orchestrator functions ends. -/
inductive Outcome where
  /-- The function returns `err` (`none` is nil). -/
  | returned (err : Option GoError)
  /-- The process is terminated by `os.Exit(code)`. -/
  | exited (code : Nat)
  /-- A run-time panic (index out of range on `pod.Spec.Containers[0]`). -/
  | panicked
deriving DecidableEq, Repr

/-- How a supervision loop ends: by `break loop`, or by ending the whole call. -/
inductive LoopExit where
  | breakLoop
  | stop (o : Outcome)
deriving DecidableEq, Repr

/-- The environment of a run: the nondeterministic inputs and the functions of
other packages whose code is not part of this file. -/
structure Env where
  /-- Whether a signal is waiting in `inject` at the pre-run `select`. -/
  injectPending : Bool
  /-- Result of `probe.RunProbes`. -/
  runProbes : Option GoError
  /-- Result of `common.GetPodList`. -/
  getPodList : Except GoError (List Pod)
  /-- Result of the n-th `litmusexec.Exec` call made by the reverter. -/
  exec : Nat → ExecResult
  /-- The method `Error()` of `cerrors.Error`. -/
  errorText : GoError → String
  /-- The function `cerrors.GetRootCauseAndErrorCode`. -/
  getRootCauseAndErrorCode : GoError → String → String × String
  /-- The function `strings.ToLower`. -/
  toLower : String → String

/-! ## Helpers of the Go standard library -/

/-- Whether `sub` occurs as a contiguous block of `s`. -/
def containsChars (sub : List Char) : List Char → Bool
  | [] => sub.isPrefixOf []
  | c :: cs => sub.isPrefixOf (c :: cs) || containsChars sub cs

/-- Go `strings.Contains(s, substr)`. -/
def stringsContains (s substr : String) : Bool :=
  containsChars substr.data s.data

/-- Go `strings.Join(elems, sep)`. -/
def stringsJoin (elems : List String) (sep : String) : String :=
  sep.intercalate elems

/-! ## stressMemory -/

/-- The command that `stressMemory` executes in the target container. -/
def stressMemoryCommand (MemoryConsumption : String) : List String :=
  ["/bin/sh", "-c", "dd if=/dev/zero of=/dev/null bs=" ++ MemoryConsumption ++ "M"]

/-! ## The reverter -/

/-- Go `killStressMemorySerial`; `n` is the number of `Exec` calls the reverter
made before this one. -/
def killStressMemorySerial (env : Env) (n : Nat)
    (containerName podName ns memFreeCmd : String) : List Effect × Option GoError :=
  let command := ["/bin/sh", "-c", memFreeCmd]
  let r := env.exec n
  if r.failed then
    ([Effect.execKill containerName podName ns command],
      some (GoError.Error ErrorType.ErrorTypeChaosRevert
        ("\x7bpodName: " ++ podName ++ ", namespace: " ++ ns ++ "\x7d")
        ("failed to revert chaos: " ++ r.out)))
  else
    ([Effect.execKill containerName podName ns command,
      Effect.setTargets podName "reverted" "pod"], none)

/-- The `for` loop of `killStressMemoryParallel`: the effects and the final `errList`. -/
def killLoop (env : Env) (containerName memFreeCmd : String) :
    Nat → List Pod → List String → List Effect × List String
  | _, [], errList => ([], errList)
  | n, pod :: pods, errList =>
    match killStressMemorySerial env n containerName pod.Name pod.Namespace memFreeCmd with
    | (tr, some err) =>
      let r := killLoop env containerName memFreeCmd (n + 1) pods (errList ++ [env.errorText err])
      (tr ++ r.1, r.2)
    | (tr, none) =>
      let r := killLoop env containerName memFreeCmd (n + 1) pods errList
      (tr ++ r.1, r.2)

/-- Go `killStressMemoryParallel`. -/
def killStressMemoryParallel (env : Env) (n : Nat) (containerName : String)
    (targetPodList : List Pod) (memFreeCmd : String) : List Effect × Option GoError :=
  let r := killLoop env containerName memFreeCmd n targetPodList []
  if r.2.length != 0 then
    (r.1, some (GoError.PreserveError ("[" ++ stringsJoin r.2 "," ++ "]")))
  else
    (r.1, none)

/-! ## Pieces shared by the two modes -/

/-- The engine event generated before a pod is stressed, when an engine name is set. -/
def injectEvent (ed : ExperimentDetails) (pod : Pod) : List Effect :=
  if ed.EngineName != "" then
    [Effect.generateEvents ("Injecting " ++ ed.ExperimentName ++ " chaos on " ++ pod.Name ++ " pod")]
  else []

/-- The assignment `experimentsDetails.TargetContainer = pod.Spec.Containers[0].Name`
guarded by `!experimentsDetails.IsTargetContainerProvided`; `none` is the panic of
the index expression on a pod without containers. -/
def resolveTargetContainer (ed : ExperimentDetails) (pod : Pod) : Option ExperimentDetails :=
  if !ed.IsTargetContainerProvided then
    match pod.Containers with
    | [] => none
    | c :: _ => some { ed with TargetContainer := c.Name }
  else some ed

/-- The statement `go stressMemory(strconv.Itoa(MemoryConsumption), TargetContainer, pod.Name, pod.Namespace, ...)`. -/
def goStress (ed : ExperimentDetails) (pod : Pod) : Effect :=
  Effect.goStressMemory (toString ed.MemoryConsumption) ed.TargetContainer pod.Name pod.Namespace

/-- The effects of the `case <-signChan` branch after the kill: the result is set
to "Stopped" and the chaos result is updated. -/
def stoppedEffects (env : Env) (cd : ChaosDetails) (err : GoError) : List Effect :=
  let r := env.getRootCauseAndErrorCode err cd.Phase
  [Effect.setResultAfterCompletion "Stopped" "Stopped" r.1 r.2, Effect.chaosResult "EOT"]

/-! ## Serial mode -/

/-- The `cerrors.Error` returned by serial mode for a stress error other than an OOM kill. -/
def serialInjectError (ed : ExperimentDetails) (pod : Pod) (msg : String) : GoError :=
  GoError.Error ErrorType.ErrorTypeChaosInject
    ("podName: " ++ pod.Name ++ ", namespace: " ++ pod.Namespace ++ ", container: "
      ++ ed.TargetContainer)
    ("failed to stress memory of target pod: " ++ msg)

/-- The `cerrors.Error` built by serial mode in the `case <-signChan` branch. -/
def serialAbortError (ed : ExperimentDetails) (pod : Pod) : GoError :=
  GoError.Error ErrorType.ErrorTypeExperimentAborted
    ("\x7bpodName: " ++ pod.Name ++ ", namespace: " ++ pod.Namespace ++ ", container: "
      ++ ed.TargetContainer ++ "\x7d")
    "experiment is aborted"

/-- The supervision loop (`loop:`) of `injectChaosInSerialMode` for `pod`.
Returns the effects, the way the loop ends and the rest of the select script. -/
def superviseSerial (env : Env) (ed : ExperimentDetails) (cd : ChaosDetails) (pod : Pod) (n : Nat) :
    List SelectCase → List Effect × LoopExit × List SelectCase
  | [] => ([Effect.recvEndTime], LoopExit.breakLoop, [])
  | SelectCase.endTime :: rest => ([Effect.recvEndTime], LoopExit.breakLoop, rest)
  | SelectCase.stressErr none :: rest =>
    let r := superviseSerial env ed cd pod n rest
    (Effect.recvStressErr none :: r.1, r.2)
  | SelectCase.stressErr (some msg) :: rest =>
    if stringsContains msg "137" then
      ([Effect.recvStressErr (some msg)], LoopExit.stop (Outcome.returned none), rest)
    else
      ([Effect.recvStressErr (some msg)],
        LoopExit.stop (Outcome.returned (some (serialInjectError ed pod msg))), rest)
  | SelectCase.signChan :: rest =>
    let k := killStressMemorySerial env n ed.TargetContainer pod.Name pod.Namespace ed.ChaosKillCmd
    (Effect.recvSignChan :: (k.1 ++ stoppedEffects env cd (serialAbortError ed pod)),
      LoopExit.stop (Outcome.exited 1), rest)

/-- What serial mode does for `pod` before it enters the supervision loop: the
engine event, the start of the stress goroutine and `SetTargets(pod.Name, "injected", "pod")`. -/
def serialStart (ed ed1 : ExperimentDetails) (pod : Pod) : List Effect :=
  injectEvent ed pod ++ [goStress ed1 pod, Effect.setTargets pod.Name "injected" "pod"]

/-- The `for _, pod := range targetPodList.Items` loop of `injectChaosInSerialMode`
followed by its final `return nil`. -/
def serialLoop (env : Env) (cd : ChaosDetails) :
    ExperimentDetails → Nat → List Pod → List SelectCase → List Effect × Outcome
  | _, _, [], _ => ([], Outcome.returned none)
  | ed, n, pod :: pods, script =>
    match resolveTargetContainer ed pod with
    | none => (injectEvent ed pod, Outcome.panicked)
    | some ed1 =>
      let start := serialStart ed ed1 pod
      match superviseSerial env ed1 cd pod n script with
      | (ltr, LoopExit.stop o, _) => (start ++ ltr, o)
      | (ltr, LoopExit.breakLoop, rest) =>
        match killStressMemorySerial env n ed1.TargetContainer pod.Name pod.Namespace
            ed1.ChaosKillCmd with
        | (ktr, some err) =>
          (start ++ ltr ++ ktr,
            Outcome.returned (some (GoError.Propagate err "could not revert memory stress")))
        | (ktr, none) =>
          let r := serialLoop env cd ed1 (n + 1) pods rest
          (start ++ ltr ++ ktr ++ r.1, r.2)

/-- The probes run before injection (`len(resultDetails.ProbeDetails) != 0`):
the effects, and the error that ends the call if the probes fail. -/
def duringChaosProbes (env : Env) (rd : ResultDetails) : List Effect × Option GoError :=
  if rd.ProbeDetails.length != 0 then ([Effect.runProbes], env.runProbes) else ([], none)

/-- Go `injectChaosInSerialMode`. -/
def injectChaosInSerialMode (env : Env) (ed : ExperimentDetails) (targetPodList : List Pod)
    (rd : ResultDetails) (cd : ChaosDetails) (script : List SelectCase) : List Effect × Outcome :=
  match duringChaosProbes env rd with
  | (ptr, some err) => (ptr, Outcome.returned (some err))
  | (ptr, none) =>
    if env.injectPending then
      (ptr ++ [Effect.recvInject, Effect.sleep 10], Outcome.exited 0)
    else
      let r := serialLoop env cd ed 0 targetPodList script
      (ptr ++ r.1, r.2)

/-! ## Parallel mode -/

/-- The `for _, pod := range targetPodList.Items` loop of `injectChaosInParallelMode`:
the effects and the experiment details it leaves (`none` if it panics). -/
def parallelInjectLoop : ExperimentDetails → List Pod → List Effect × Option ExperimentDetails
  | ed, [] => ([], some ed)
  | ed, pod :: pods =>
    match resolveTargetContainer ed pod with
    | none => (injectEvent ed pod, none)
    | some ed1 =>
      let r := parallelInjectLoop ed1 pods
      (injectEvent ed pod ++ goStress ed1 pod :: r.1, r.2)

/-- The `cerrors.Error` returned by parallel mode for a stress error other than an OOM kill. -/
def parallelInjectError (msg : String) : GoError :=
  GoError.Error ErrorType.ErrorTypeChaosInject "" ("failed to stress memory of target pod: " ++ msg)

/-- The `cerrors.Error` built by parallel mode in the `case <-signChan` branch. -/
def parallelAbortError : GoError :=
  GoError.Error ErrorType.ErrorTypeExperimentAborted "" "experiment is aborted"

/-- The supervision loop (`loop:`) of `injectChaosInParallelMode`. -/
def superviseParallel (env : Env) (ed : ExperimentDetails) (cd : ChaosDetails)
    (targetPodList : List Pod) : List SelectCase → List Effect × LoopExit
  | [] => ([Effect.recvEndTime], LoopExit.breakLoop)
  | SelectCase.endTime :: _ => ([Effect.recvEndTime], LoopExit.breakLoop)
  | SelectCase.stressErr none :: rest =>
    let r := superviseParallel env ed cd targetPodList rest
    (Effect.recvStressErr none :: r.1, r.2)
  | SelectCase.stressErr (some msg) :: _ =>
    if stringsContains msg "137" then
      ([Effect.recvStressErr (some msg)], LoopExit.stop (Outcome.returned none))
    else
      ([Effect.recvStressErr (some msg)],
        LoopExit.stop (Outcome.returned (some (parallelInjectError msg))))
  | SelectCase.signChan :: _ =>
    let k := killStressMemoryParallel env 0 ed.TargetContainer targetPodList ed.ChaosKillCmd
    (Effect.recvSignChan :: (k.1 ++ stoppedEffects env cd parallelAbortError),
      LoopExit.stop (Outcome.exited 1))

/-- Go `injectChaosInParallelMode`. -/
def injectChaosInParallelMode (env : Env) (ed : ExperimentDetails) (targetPodList : List Pod)
    (rd : ResultDetails) (cd : ChaosDetails) (script : List SelectCase) : List Effect × Outcome :=
  match duringChaosProbes env rd with
  | (ptr, some err) => (ptr, Outcome.returned (some err))
  | (ptr, none) =>
    if env.injectPending then
      (ptr ++ [Effect.recvInject, Effect.sleep 10], Outcome.exited 0)
    else
      match parallelInjectLoop ed targetPodList with
      | (itr, none) => (ptr ++ itr, Outcome.panicked)
      | (itr, some ed1) =>
        match superviseParallel env ed1 cd targetPodList script with
        | (ltr, LoopExit.stop o) => (ptr ++ itr ++ ltr, o)
        | (ltr, LoopExit.breakLoop) =>
          let k := killStressMemoryParallel env 0 ed1.TargetContainer targetPodList
            ed1.ChaosKillCmd
          (ptr ++ itr ++ ltr ++ k.1, Outcome.returned k.2)

/-! ## experimentMemory -/

/-- The `if err != nil { return stacktrace.Propagate(err, msg) }` around a call. -/
def propagate (msg : String) : Outcome → Outcome
  | Outcome.returned (some err) => Outcome.returned (some (GoError.Propagate err msg))
  | o => o

/-- Go `experimentMemory`. -/
def experimentMemory (env : Env) (ed : ExperimentDetails) (rd : ResultDetails)
    (cd : ChaosDetails) (script : List SelectCase) : List Effect × Outcome :=
  if ed.TargetPods == "" && cd.AppDetailIsNil then
    ([], Outcome.returned (some (GoError.Error ErrorType.ErrorTypeTargetSelection ""
      "provide one of the appLabel or TARGET_PODS")))
  else
    match env.getPodList with
    | Except.error err =>
      ([], Outcome.returned (some (GoError.Propagate err "could not get target pods")))
    | Except.ok targetPodList =>
      let ed1 := { ed with IsTargetContainerProvided := ed.TargetContainer != "" }
      if env.toLower ed1.Sequence = "serial" then
        let r := injectChaosInSerialMode env ed1 targetPodList rd cd script
        (r.1, propagate "could not run chaos in serial mode" r.2)
      else if env.toLower ed1.Sequence = "parallel" then
        let r := injectChaosInParallelMode env ed1 targetPodList rd cd script
        (r.1, propagate "could not run chaos in parallel mode" r.2)
      else
        ([], Outcome.returned (some (GoError.Error ErrorType.ErrorTypeGeneric ""
          ("\x27" ++ ed1.Sequence ++ "\x27 sequence is not supported"))))

/-! ## Observations on traces -/

/-- The targets marked "reverted" by `common.SetTargets`, in the order of the calls. -/
def revertedTargets (tr : List Effect) : List String :=
  tr.filterMap fun e =>
    match e with
    | Effect.setTargets t s _ => if s = "reverted" then some t else none
    | _ => none

/-- The targets marked "injected" by `common.SetTargets`, in the order of the calls. -/
def injectedTargets (tr : List Effect) : List String :=
  tr.filterMap fun e =>
    match e with
    | Effect.setTargets t s _ => if s = "injected" then some t else none
    | _ => none

/-- The `(container, pod, namespace)` of the stress commands started, in order. -/
def stressStarts (tr : List Effect) : List (String × String × String) :=
  tr.filterMap fun e =>
    match e with
    | Effect.goStressMemory _ c p ns => some (c, p, ns)
    | _ => none

/-- The `(container, pod, namespace)` of the kill commands executed, in order. -/
def killExecs (tr : List Effect) : List (String × String × String) :=
  tr.filterMap fun e =>
    match e with
    | Effect.execKill c p ns _ => some (c, p, ns)
    | _ => none

/-- The texts of the stress errors received by the supervision loop, in order. -/
def stressErrors (tr : List Effect) : List String :=
  tr.filterMap fun e =>
    match e with
    | Effect.recvStressErr (some msg) => some msg
    | _ => none

/-- Every target on which a stress command was started has had the kill command
executed on it and been marked "reverted": the kill commands are on the pods of the
stress commands, and the targets marked reverted are their names, in the same order. -/
def allStartedReverted (tr : List Effect) : Prop :=
  (killExecs tr).map Prod.snd = (stressStarts tr).map Prod.snd ∧
    revertedTargets tr = (stressStarts tr).map (fun x => x.2.1)

instance (tr : List Effect) : Decidable (allStartedReverted tr) := by
  unfold allStartedReverted
  infer_instance

/-- What a run does once the supervision loop has received the abort signal: after
the signal it starts no stress command, executes kill commands such that every
target started before the signal has had one, sets the result to "Stopped" and
updates the chaos result. -/
def abortHandled (tr : List Effect) : Prop :=
  ∃ pre kills failStep errCode,
    tr = pre ++ Effect.recvSignChan :: (kills ++
      [Effect.setResultAfterCompletion "Stopped" "Stopped" failStep errCode,
        Effect.chaosResult "EOT"]) ∧
    stressStarts kills = [] ∧
    (killExecs (pre ++ kills)).map Prod.snd = (stressStarts pre).map Prod.snd

/-- The two events in the life of a target: its stress command is started, the
kill command is executed on it. -/
inductive Phase where
  | inject
  | revert
deriving DecidableEq, Repr

/-- The injection and revert events of a trace, in order, each with the name and
the namespace of its pod. -/
def lifecycle (tr : List Effect) : List (Phase × String × String) :=
  tr.filterMap fun e =>
    match e with
    | Effect.goStressMemory _ _ p ns => some (Phase.inject, p, ns)
    | Effect.execKill _ p ns _ => some (Phase.revert, p, ns)
    | _ => none

/-- The lifecycle of a complete serial run: each pod injected then reverted, pod after pod. -/
def serialOrder (pods : List Pod) : List (Phase × String × String) :=
  pods.flatMap fun p => [(Phase.inject, p.Name, p.Namespace), (Phase.revert, p.Name, p.Namespace)]

/-- The calls of `killStressMemorySerial` on the pods of a list, one per pod and in
list order, the first of them being the `n`-th `Exec` of the reverter. -/
def individualReverts (env : Env) (n : Nat) (containerName : String) (pods : List Pod)
    (memFreeCmd : String) : List (List Effect × Option GoError) :=
  (pods.enumFrom n).map fun ip =>
    killStressMemorySerial env ip.1 containerName ip.2.Name ip.2.Namespace memFreeCmd

/-- The name of `pod.Spec.Containers[0]` (the empty string for a pod without containers,
on which the index expression panics). -/
def firstContainerName (pod : Pod) : String :=
  match pod.Containers with
  | [] => ""
  | c :: _ => c.Name

/-- The container in which the stress command of `pod` is started: the configured
one when `IsTargetContainerProvided` is set, else the first container of the pod. -/
def containerFor (ed : ExperimentDetails) (pod : Pod) : String :=
  if ed.IsTargetContainerProvided then ed.TargetContainer else firstContainerName pod

/-- `k` receptions of a nil error from `stressErr`, each of which re-arms the timer. -/
def quiet (k : Nat) : List Effect := List.replicate k (Effect.recvStressErr none)

/-! ## Sample inputs -/

/-- A rendering of errors, standing for the method `Error()`. -/
def sampleErrorText : GoError → String
  | GoError.Error _ target reason => target ++ ": " ++ reason
  | GoError.PreserveError errString => errString
  | GoError.Propagate cause msg => msg ++ ": " ++ sampleErrorText cause
  | GoError.External text => text

/-- Lower-casing of the ASCII letters, standing for `strings.ToLower` on the sample inputs. -/
def asciiLower (s : String) : String :=
  String.mk (s.data.map fun c => if 'A' ≤ c ∧ c ≤ 'Z' then Char.ofNat (c.toNat + 32) else c)

/-- An environment without abort signal, in which every kill command succeeds. -/
def sampleEnv : Env where
  injectPending := false
  runProbes := none
  getPodList := Except.ok []
  exec := fun _ => { out := "", failed := false }
  errorText := sampleErrorText
  getRootCauseAndErrorCode := fun err phase => (phase, sampleErrorText err)
  toLower := asciiLower

/-- An environment in which the abort signal is waiting before the run starts. -/
def abortedEnv : Env := { sampleEnv with injectPending := true }

/-- An environment in which every kill command fails. -/
def failingKillEnv : Env :=
  { sampleEnv with exec := fun _ => { out := "sh: kill: not found", failed := true } }

/-- An environment in which `common.GetPodList` returns `pods`. -/
def podListEnv (pods : List Pod) : Env := { sampleEnv with getPodList := Except.ok pods }

/-- A pod with one container. -/
def appPod0 : Pod := { Name := "app-0", Namespace := "default", Containers := [{ Name := "main" }] }

/-- A pod whose first container has another name. -/
def appPod1 : Pod :=
  { Name := "app-1", Namespace := "default", Containers := [{ Name := "sidecar" }, { Name := "main" }] }

/-- Experiment details without a configured target container. -/
def sampleDetails : ExperimentDetails where
  ExperimentName := "pod-memory-hog-exec"
  EngineName := ""
  ChaosDuration := 5
  MemoryConsumption := 500
  TargetContainer := ""
  IsTargetContainerProvided := false
  ChaosKillCmd := "kill -9 $(pidof dd)"
  Sequence := "serial"
  TargetPods := "app-0,app-1"

/-- No probes are configured. -/
def noProbes : ResultDetails := { ProbeDetails := [] }

/-- Chaos details with application details present. -/
def sampleChaos : ChaosDetails := { Phase := "ChaosInject", AppDetailIsNil := false }

/-! ## The runs of the two modes, case by case

`SerialRun env cd ed n pods tr o` lists the ways the pod loop of serial mode can
go: each constructor is one path through the loop body, with the effects in
program order.  `serialLoop_run` shows that every run of `serialLoop` is one of them. -/

/-- The paths through the pod loop of `injectChaosInSerialMode`. -/
inductive SerialRun (env : Env) (cd : ChaosDetails) :
    ExperimentDetails → Nat → List Pod → List Effect → Outcome → Prop where
  /-- No pod is left: `return nil`. -/
  | done (ed : ExperimentDetails) (n : Nat) :
      SerialRun env cd ed n [] [] (Outcome.returned none)
  /-- The pod has no container and none was provided: the index expression panics. -/
  | panic (ed : ExperimentDetails) (n : Nat) (pod : Pod) (pods : List Pod)
      (hres : resolveTargetContainer ed pod = none) :
      SerialRun env cd ed n (pod :: pods) (injectEvent ed pod) Outcome.panicked
  /-- The loop receives an error containing "137": `return nil`. -/
  | oom (ed ed1 : ExperimentDetails) (n : Nat) (pod : Pod) (pods : List Pod) (k : Nat)
      (msg : String) (hres : resolveTargetContainer ed pod = some ed1)
      (hmsg : stringsContains msg "137" = true) :
      SerialRun env cd ed n (pod :: pods)
        (serialStart ed ed1 pod ++ quiet k ++ [Effect.recvStressErr (some msg)])
        (Outcome.returned none)
  /-- The loop receives another error: the injection error is returned. -/
  | stressFailed (ed ed1 : ExperimentDetails) (n : Nat) (pod : Pod) (pods : List Pod) (k : Nat)
      (msg : String) (hres : resolveTargetContainer ed pod = some ed1)
      (hmsg : stringsContains msg "137" = false) :
      SerialRun env cd ed n (pod :: pods)
        (serialStart ed ed1 pod ++ quiet k ++ [Effect.recvStressErr (some msg)])
        (Outcome.returned (some (serialInjectError ed1 pod msg)))
  /-- The loop receives the abort signal: kill, "Stopped" result, `os.Exit(1)`. -/
  | aborted (ed ed1 : ExperimentDetails) (n : Nat) (pod : Pod) (pods : List Pod) (k : Nat)
      (hres : resolveTargetContainer ed pod = some ed1) :
      SerialRun env cd ed n (pod :: pods)
        (serialStart ed ed1 pod ++ quiet k ++ Effect.recvSignChan ::
          ((killStressMemorySerial env n ed1.TargetContainer pod.Name pod.Namespace
              ed1.ChaosKillCmd).1 ++ stoppedEffects env cd (serialAbortError ed1 pod)))
        (Outcome.exited 1)
  /-- The timer fires and the kill fails: the revert error is propagated. -/
  | revertFailed (ed ed1 : ExperimentDetails) (n : Nat) (pod : Pod) (pods : List Pod) (k : Nat)
      (err : GoError) (hres : resolveTargetContainer ed pod = some ed1)
      (hkill : (killStressMemorySerial env n ed1.TargetContainer pod.Name pod.Namespace
        ed1.ChaosKillCmd).2 = some err) :
      SerialRun env cd ed n (pod :: pods)
        (serialStart ed ed1 pod ++ quiet k ++ [Effect.recvEndTime] ++
          (killStressMemorySerial env n ed1.TargetContainer pod.Name pod.Namespace
            ed1.ChaosKillCmd).1)
        (Outcome.returned (some (GoError.Propagate err "could not revert memory stress")))
  /-- The timer fires and the kill succeeds: the loop goes on with the next pod. -/
  | next (ed ed1 : ExperimentDetails) (n : Nat) (pod : Pod) (pods : List Pod) (k : Nat)
      (rtr : List Effect) (o : Outcome) (hres : resolveTargetContainer ed pod = some ed1)
      (hkill : (killStressMemorySerial env n ed1.TargetContainer pod.Name pod.Namespace
        ed1.ChaosKillCmd).2 = none)
      (hrest : SerialRun env cd ed1 (n + 1) pods rtr o) :
      SerialRun env cd ed n (pod :: pods)
        (serialStart ed ed1 pod ++ quiet k ++ [Effect.recvEndTime] ++
          (killStressMemorySerial env n ed1.TargetContainer pod.Name pod.Namespace
            ed1.ChaosKillCmd).1 ++ rtr)
        o

/-- The paths through `injectChaosInParallelMode` once the injection loop has
run without panic and left the experiment details `ed1`; `itr` are its effects. -/
inductive ParallelRun (env : Env) (cd : ChaosDetails) (ed1 : ExperimentDetails)
    (pods : List Pod) (itr : List Effect) : List Effect → Outcome → Prop where
  /-- The loop receives an error containing "137": `return nil`. -/
  | oom (k : Nat) (msg : String) (hmsg : stringsContains msg "137" = true) :
      ParallelRun env cd ed1 pods itr
        (itr ++ quiet k ++ [Effect.recvStressErr (some msg)]) (Outcome.returned none)
  /-- The loop receives another error: the injection error is returned. -/
  | stressFailed (k : Nat) (msg : String) (hmsg : stringsContains msg "137" = false) :
      ParallelRun env cd ed1 pods itr
        (itr ++ quiet k ++ [Effect.recvStressErr (some msg)])
        (Outcome.returned (some (parallelInjectError msg)))
  /-- The loop receives the abort signal: kill all, "Stopped" result, `os.Exit(1)`. -/
  | aborted (k : Nat) :
      ParallelRun env cd ed1 pods itr
        (itr ++ quiet k ++ Effect.recvSignChan ::
          ((killStressMemoryParallel env 0 ed1.TargetContainer pods ed1.ChaosKillCmd).1 ++
            stoppedEffects env cd parallelAbortError))
        (Outcome.exited 1)
  /-- The timer fires: all pods are reverted and the result of the revert is returned. -/
  | timeUp (k : Nat) :
      ParallelRun env cd ed1 pods itr
        (itr ++ quiet k ++ [Effect.recvEndTime] ++
          (killStressMemoryParallel env 0 ed1.TargetContainer pods ed1.ChaosKillCmd).1)
        (Outcome.returned (killStressMemoryParallel env 0 ed1.TargetContainer pods
          ed1.ChaosKillCmd).2)

/-! ## The reverter: lemmas -/

theorem killLoop_eq (env : Env) (c cmd : String) (pods : List Pod) :
    ∀ (n : Nat) (errList : List String),
      killLoop env c cmd n pods errList =
        (((individualReverts env n c pods cmd).map Prod.fst).flatten,
          errList ++ ((individualReverts env n c pods cmd).filterMap Prod.snd).map env.errorText) := by
  induction pods with
  | nil => intro n errList; simp [killLoop, individualReverts]
  | cons pod pods ih =>
    intro n errList
    unfold killLoop
    cases h : killStressMemorySerial env n c pod.Name pod.Namespace cmd with
    | mk tr e =>
      cases e with
      | none =>
        simp only [ih]
        simp [individualReverts, List.enumFrom_cons, h]
      | some err =>
        simp only [ih]
        simp [individualReverts, List.enumFrom_cons, h]

theorem quiet_succ (k : Nat) : Effect.recvStressErr none :: quiet k = quiet (k + 1) := by
  simp [quiet, List.replicate_succ]

/-! ## Observations: computation rules -/

@[simp]
theorem stressStarts_nil : stressStarts [] = [] := rfl

@[simp]
theorem stressStarts_cons (e : Effect) (tr : List Effect) :
    stressStarts (e :: tr) =
      (match e with
        | Effect.goStressMemory _ c p ns => [(c, p, ns)]
        | _ => []) ++ stressStarts tr := by
  cases e <;> simp [stressStarts]

@[simp]
theorem stressStarts_append (a b : List Effect) :
    stressStarts (a ++ b) = stressStarts a ++ stressStarts b := by
  simp [stressStarts, List.filterMap_append]

@[simp]
theorem killExecs_nil : killExecs [] = [] := rfl

@[simp]
theorem killExecs_cons (e : Effect) (tr : List Effect) :
    killExecs (e :: tr) =
      (match e with
        | Effect.execKill c p ns _ => [(c, p, ns)]
        | _ => []) ++ killExecs tr := by
  cases e <;> simp [killExecs]

@[simp]
theorem killExecs_append (a b : List Effect) :
    killExecs (a ++ b) = killExecs a ++ killExecs b := by
  simp [killExecs, List.filterMap_append]

@[simp]
theorem revertedTargets_nil : revertedTargets [] = [] := rfl

@[simp]
theorem revertedTargets_cons (e : Effect) (tr : List Effect) :
    revertedTargets (e :: tr) =
      (match e with
        | Effect.setTargets t s _ => if s = "reverted" then [t] else []
        | _ => []) ++ revertedTargets tr := by
  cases e <;> simp [revertedTargets]
  split <;> simp [List.filterMap_cons, *]

@[simp]
theorem revertedTargets_append (a b : List Effect) :
    revertedTargets (a ++ b) = revertedTargets a ++ revertedTargets b := by
  simp [revertedTargets, List.filterMap_append]

@[simp]
theorem injectedTargets_nil : injectedTargets [] = [] := rfl

@[simp]
theorem injectedTargets_cons (e : Effect) (tr : List Effect) :
    injectedTargets (e :: tr) =
      (match e with
        | Effect.setTargets t s _ => if s = "injected" then [t] else []
        | _ => []) ++ injectedTargets tr := by
  cases e <;> simp [injectedTargets]
  split <;> simp [List.filterMap_cons, *]

@[simp]
theorem injectedTargets_append (a b : List Effect) :
    injectedTargets (a ++ b) = injectedTargets a ++ injectedTargets b := by
  simp [injectedTargets, List.filterMap_append]

@[simp]
theorem lifecycle_nil : lifecycle [] = [] := rfl

@[simp]
theorem lifecycle_cons (e : Effect) (tr : List Effect) :
    lifecycle (e :: tr) =
      (match e with
        | Effect.goStressMemory _ _ p ns => [(Phase.inject, p, ns)]
        | Effect.execKill _ p ns _ => [(Phase.revert, p, ns)]
        | _ => []) ++ lifecycle tr := by
  cases e <;> simp [lifecycle]

@[simp]
theorem lifecycle_append (a b : List Effect) :
    lifecycle (a ++ b) = lifecycle a ++ lifecycle b := by
  simp [lifecycle, List.filterMap_append]

/-! ## Observations of the pieces of a run -/

@[simp]
theorem stressStarts_quiet (k : Nat) : stressStarts (quiet k) = [] := by
  induction k with
  | zero => rfl
  | succ k ih => rw [← quiet_succ]; simp [ih]

@[simp]
theorem killExecs_quiet (k : Nat) : killExecs (quiet k) = [] := by
  induction k with
  | zero => rfl
  | succ k ih => rw [← quiet_succ]; simp [ih]

@[simp]
theorem revertedTargets_quiet (k : Nat) : revertedTargets (quiet k) = [] := by
  induction k with
  | zero => rfl
  | succ k ih => rw [← quiet_succ]; simp [ih]

@[simp]
theorem injectedTargets_quiet (k : Nat) : injectedTargets (quiet k) = [] := by
  induction k with
  | zero => rfl
  | succ k ih => rw [← quiet_succ]; simp [ih]

@[simp]
theorem lifecycle_quiet (k : Nat) : lifecycle (quiet k) = [] := by
  induction k with
  | zero => rfl
  | succ k ih => rw [← quiet_succ]; simp [ih]

theorem mem_quiet {e : Effect} {k : Nat} (h : e ∈ quiet k) : e = Effect.recvStressErr none := by
  unfold quiet at h
  exact (List.mem_replicate.1 h).2

@[simp]
theorem recvSome_not_mem_quiet (msg : String) (k : Nat) :
    Effect.recvStressErr (some msg) ∉ quiet k := by
  intro h
  have := mem_quiet h
  simp at this

@[simp]
theorem recvSignChan_not_mem_quiet (k : Nat) : Effect.recvSignChan ∉ quiet k := by
  intro h
  have := mem_quiet h
  simp at this

@[simp]
theorem stressStarts_injectEvent (ed : ExperimentDetails) (pod : Pod) :
    stressStarts (injectEvent ed pod) = [] := by
  unfold injectEvent; split <;> simp

@[simp]
theorem killExecs_injectEvent (ed : ExperimentDetails) (pod : Pod) :
    killExecs (injectEvent ed pod) = [] := by
  unfold injectEvent; split <;> simp

@[simp]
theorem revertedTargets_injectEvent (ed : ExperimentDetails) (pod : Pod) :
    revertedTargets (injectEvent ed pod) = [] := by
  unfold injectEvent; split <;> simp

@[simp]
theorem injectedTargets_injectEvent (ed : ExperimentDetails) (pod : Pod) :
    injectedTargets (injectEvent ed pod) = [] := by
  unfold injectEvent; split <;> simp

@[simp]
theorem lifecycle_injectEvent (ed : ExperimentDetails) (pod : Pod) :
    lifecycle (injectEvent ed pod) = [] := by
  unfold injectEvent; split <;> simp

@[simp]
theorem recvSome_not_mem_injectEvent (msg : String) (ed : ExperimentDetails) (pod : Pod) :
    Effect.recvStressErr (some msg) ∉ injectEvent ed pod := by
  unfold injectEvent; split <;> simp

@[simp]
theorem recvSignChan_not_mem_injectEvent (ed : ExperimentDetails) (pod : Pod) :
    Effect.recvSignChan ∉ injectEvent ed pod := by
  unfold injectEvent; split <;> simp

@[simp]
theorem stressStarts_serialStart (ed ed1 : ExperimentDetails) (pod : Pod) :
    stressStarts (serialStart ed ed1 pod) = [(ed1.TargetContainer, pod.Name, pod.Namespace)] := by
  simp [serialStart, goStress]

@[simp]
theorem killExecs_serialStart (ed ed1 : ExperimentDetails) (pod : Pod) :
    killExecs (serialStart ed ed1 pod) = [] := by
  simp [serialStart, goStress]

@[simp]
theorem revertedTargets_serialStart (ed ed1 : ExperimentDetails) (pod : Pod) :
    revertedTargets (serialStart ed ed1 pod) = [] := by
  simp [serialStart, goStress]

@[simp]
theorem injectedTargets_serialStart (ed ed1 : ExperimentDetails) (pod : Pod) :
    injectedTargets (serialStart ed ed1 pod) = [pod.Name] := by
  simp [serialStart, goStress]

@[simp]
theorem lifecycle_serialStart (ed ed1 : ExperimentDetails) (pod : Pod) :
    lifecycle (serialStart ed ed1 pod) = [(Phase.inject, pod.Name, pod.Namespace)] := by
  simp [serialStart, goStress]

@[simp]
theorem recvSome_not_mem_serialStart (msg : String) (ed ed1 : ExperimentDetails)
    (pod : Pod) : Effect.recvStressErr (some msg) ∉ serialStart ed ed1 pod := by
  simp [serialStart, goStress]

@[simp]
theorem recvSignChan_not_mem_serialStart (ed ed1 : ExperimentDetails) (pod : Pod) :
    Effect.recvSignChan ∉ serialStart ed ed1 pod := by
  simp [serialStart, goStress]

@[simp]
theorem stressStarts_stoppedEffects (env : Env) (cd : ChaosDetails) (err : GoError) :
    stressStarts (stoppedEffects env cd err) = [] := by
  simp [stoppedEffects]

@[simp]
theorem killExecs_stoppedEffects (env : Env) (cd : ChaosDetails) (err : GoError) :
    killExecs (stoppedEffects env cd err) = [] := by
  simp [stoppedEffects]

@[simp]
theorem revertedTargets_stoppedEffects (env : Env) (cd : ChaosDetails) (err : GoError) :
    revertedTargets (stoppedEffects env cd err) = [] := by
  simp [stoppedEffects]

@[simp]
theorem injectedTargets_stoppedEffects (env : Env) (cd : ChaosDetails) (err : GoError) :
    injectedTargets (stoppedEffects env cd err) = [] := by
  simp [stoppedEffects]

@[simp]
theorem lifecycle_stoppedEffects (env : Env) (cd : ChaosDetails) (err : GoError) :
    lifecycle (stoppedEffects env cd err) = [] := by
  simp [stoppedEffects]

@[simp]
theorem recvSome_not_mem_stoppedEffects (msg : String) (env : Env) (cd : ChaosDetails)
    (err : GoError) : Effect.recvStressErr (some msg) ∉ stoppedEffects env cd err := by
  simp [stoppedEffects]

@[simp]
theorem recvSignChan_not_mem_stoppedEffects (env : Env) (cd : ChaosDetails)
    (err : GoError) : Effect.recvSignChan ∉ stoppedEffects env cd err := by
  simp [stoppedEffects]

@[simp]
theorem killExecs_killSerial (env : Env) (n : Nat) (c p ns cmd : String) :
    killExecs (killStressMemorySerial env n c p ns cmd).1 = [(c, p, ns)] := by
  unfold killStressMemorySerial
  by_cases h : (env.exec n).failed <;> simp [h]

@[simp]
theorem stressStarts_killSerial (env : Env) (n : Nat) (c p ns cmd : String) :
    stressStarts (killStressMemorySerial env n c p ns cmd).1 = [] := by
  unfold killStressMemorySerial
  by_cases h : (env.exec n).failed <;> simp [h]

@[simp]
theorem lifecycle_killSerial (env : Env) (n : Nat) (c p ns cmd : String) :
    lifecycle (killStressMemorySerial env n c p ns cmd).1 = [(Phase.revert, p, ns)] := by
  unfold killStressMemorySerial
  by_cases h : (env.exec n).failed <;> simp [h]

theorem revertedTargets_killSerial (env : Env) (n : Nat) (c p ns cmd : String) :
    revertedTargets (killStressMemorySerial env n c p ns cmd).1 =
      if (env.exec n).failed then [] else [p] := by
  unfold killStressMemorySerial
  by_cases h : (env.exec n).failed <;> simp [h]

@[simp]
theorem injectedTargets_killSerial (env : Env) (n : Nat) (c p ns cmd : String) :
    injectedTargets (killStressMemorySerial env n c p ns cmd).1 = [] := by
  unfold killStressMemorySerial
  by_cases h : (env.exec n).failed <;> simp [h]

@[simp]
theorem recvSome_not_mem_killSerial (msg : String) (env : Env) (n : Nat)
    (c p ns cmd : String) :
    Effect.recvStressErr (some msg) ∉ (killStressMemorySerial env n c p ns cmd).1 := by
  unfold killStressMemorySerial
  by_cases h : (env.exec n).failed <;> simp [h]

@[simp]
theorem recvSignChan_not_mem_killSerial (env : Env) (n : Nat) (c p ns cmd : String) :
    Effect.recvSignChan ∉ (killStressMemorySerial env n c p ns cmd).1 := by
  unfold killStressMemorySerial
  by_cases h : (env.exec n).failed <;> simp [h]

theorem killSerial_snd_eq_none (env : Env) (n : Nat) (c p ns cmd : String) :
    (killStressMemorySerial env n c p ns cmd).2 = none ↔ (env.exec n).failed = false := by
  unfold killStressMemorySerial
  by_cases h : (env.exec n).failed <;> simp [h]

theorem killSerial_snd_eq_some (env : Env) (n : Nat) (c p ns cmd : String) (err : GoError) :
    (killStressMemorySerial env n c p ns cmd).2 = some err ↔
      ((env.exec n).failed = true ∧
        err = GoError.Error ErrorType.ErrorTypeChaosRevert
          ("\x7bpodName: " ++ p ++ ", namespace: " ++ ns ++ "\x7d")
          ("failed to revert chaos: " ++ (env.exec n).out)) := by
  unfold killStressMemorySerial
  by_cases h : (env.exec n).failed <;> simp [h, eq_comm]

theorem killExecs_individualReverts (env : Env) (c cmd : String) (pods : List Pod) :
    ∀ n : Nat, killExecs ((individualReverts env n c pods cmd).map Prod.fst).flatten =
      pods.map fun p => (c, p.Name, p.Namespace) := by
  induction pods with
  | nil => intro n; simp [individualReverts, killExecs]
  | cons pod pods ih =>
    intro n
    have h := ih (n + 1)
    simp only [individualReverts, List.map_map] at h
    simp [individualReverts, List.enumFrom_cons, h]

theorem stressStarts_individualReverts (env : Env) (c cmd : String) (pods : List Pod) :
    ∀ n : Nat, stressStarts ((individualReverts env n c pods cmd).map Prod.fst).flatten = [] := by
  induction pods with
  | nil => intro n; simp [individualReverts, stressStarts]
  | cons pod pods ih =>
    intro n
    have h := ih (n + 1)
    simp only [individualReverts, List.map_map] at h
    simp [individualReverts, List.enumFrom_cons, h]

theorem injectedTargets_individualReverts (env : Env) (c cmd : String) (pods : List Pod) :
    ∀ n : Nat, injectedTargets ((individualReverts env n c pods cmd).map Prod.fst).flatten = [] := by
  induction pods with
  | nil => intro n; simp [individualReverts, injectedTargets]
  | cons pod pods ih =>
    intro n
    have h := ih (n + 1)
    simp only [individualReverts, List.map_map] at h
    simp [individualReverts, List.enumFrom_cons, h]

theorem revertedTargets_individualReverts (env : Env) (c cmd : String) (pods : List Pod) :
    ∀ n : Nat, revertedTargets ((individualReverts env n c pods cmd).map Prod.fst).flatten =
      ((pods.enumFrom n).filter fun ip => !(env.exec ip.1).failed).map fun ip => ip.2.Name := by
  induction pods with
  | nil => intro n; simp [individualReverts, revertedTargets]
  | cons pod pods ih =>
    intro n
    have h := ih (n + 1)
    simp only [individualReverts, List.map_map] at h
    by_cases hf : (env.exec n).failed <;>
      simp [individualReverts, List.enumFrom_cons, revertedTargets_append,
        revertedTargets_killSerial, h, hf, List.filter_cons]

theorem killParallel_fst (env : Env) (n : Nat) (c : String) (pods : List Pod) (cmd : String) :
    (killStressMemoryParallel env n c pods cmd).1 =
      ((individualReverts env n c pods cmd).map Prod.fst).flatten := by
  unfold killStressMemoryParallel
  simp only [killLoop_eq]
  split <;> rfl

theorem killParallel_snd (env : Env) (n : Nat) (c : String) (pods : List Pod) (cmd : String) :
    (killStressMemoryParallel env n c pods cmd).2 =
      if (individualReverts env n c pods cmd).all (fun call => call.2.isNone) then none
      else some (GoError.PreserveError ("[" ++ ",".intercalate
        (((individualReverts env n c pods cmd).filterMap Prod.snd).map env.errorText) ++ "]")) := by
  unfold killStressMemoryParallel
  simp only [killLoop_eq, List.nil_append, stringsJoin]
  have key : ∀ l : List (List Effect × Option GoError),
      ((l.filterMap Prod.snd).map env.errorText).length = 0 ↔
        l.all (fun call => call.2.isNone) = true := by
    intro l
    induction l with
    | nil => simp
    | cons a l ih =>
      rcases a with ⟨t, _ | e⟩
      · simp
      · simp
  by_cases hall : (individualReverts env n c pods cmd).all (fun call => call.2.isNone) = true
  · have h0 := (key _).2 hall
    simp [h0, hall]
  · have h0 : ¬ (((individualReverts env n c pods cmd).filterMap Prod.snd).map
        env.errorText).length = 0 := fun h => hall ((key _).1 h)
    simp only [bne_iff_ne, ne_eq, h0, not_false_eq_true, ↓reduceIte, hall]
    simp

/-! ## Every run is one of the listed paths -/

theorem superviseSerial_cases (env : Env) (ed : ExperimentDetails) (cd : ChaosDetails)
    (pod : Pod) (n : Nat) (script : List SelectCase) :
    ∃ k : Nat,
      ((superviseSerial env ed cd pod n script).1 = quiet k ++ [Effect.recvEndTime] ∧
        (superviseSerial env ed cd pod n script).2.1 = LoopExit.breakLoop) ∨
      (∃ msg, stringsContains msg "137" = true ∧
        (superviseSerial env ed cd pod n script).1 = quiet k ++ [Effect.recvStressErr (some msg)] ∧
        (superviseSerial env ed cd pod n script).2.1 = LoopExit.stop (Outcome.returned none)) ∨
      (∃ msg, stringsContains msg "137" = false ∧
        (superviseSerial env ed cd pod n script).1 = quiet k ++ [Effect.recvStressErr (some msg)] ∧
        (superviseSerial env ed cd pod n script).2.1 =
          LoopExit.stop (Outcome.returned (some (serialInjectError ed pod msg)))) ∨
      ((superviseSerial env ed cd pod n script).1 = quiet k ++ Effect.recvSignChan ::
          ((killStressMemorySerial env n ed.TargetContainer pod.Name pod.Namespace
            ed.ChaosKillCmd).1 ++ stoppedEffects env cd (serialAbortError ed pod)) ∧
        (superviseSerial env ed cd pod n script).2.1 = LoopExit.stop (Outcome.exited 1)) := by
  induction script with
  | nil => exact ⟨0, Or.inl (by simp [superviseSerial, quiet])⟩
  | cons c rest ih =>
    cases c with
    | endTime => exact ⟨0, Or.inl (by simp [superviseSerial, quiet])⟩
    | signChan =>
      exact ⟨0, Or.inr (Or.inr (Or.inr (by simp [superviseSerial, quiet])))⟩
    | stressErr e =>
      cases e with
      | none =>
        obtain ⟨k, h⟩ := ih
        refine ⟨k + 1, ?_⟩
        simp only [superviseSerial, ← quiet_succ, List.cons_append]
        rcases h with h | ⟨msg, hm, h1, h2⟩ | ⟨msg, hm, h1, h2⟩ | h
        · exact Or.inl ⟨by rw [h.1], h.2⟩
        · exact Or.inr (Or.inl ⟨msg, hm, by rw [h1], h2⟩)
        · exact Or.inr (Or.inr (Or.inl ⟨msg, hm, by rw [h1], h2⟩))
        · exact Or.inr (Or.inr (Or.inr ⟨by rw [h.1], h.2⟩))
      | some msg =>
        refine ⟨0, ?_⟩
        by_cases hm : stringsContains msg "137" = true
        · exact Or.inr (Or.inl ⟨msg, hm, by simp [superviseSerial, hm, quiet]⟩)
        · have hm' : stringsContains msg "137" = false := by simpa using hm
          exact Or.inr (Or.inr (Or.inl ⟨msg, hm', by simp [superviseSerial, hm', quiet]⟩))

theorem serialLoop_run (env : Env) (cd : ChaosDetails) (pods : List Pod) :
    ∀ (ed : ExperimentDetails) (n : Nat) (script : List SelectCase),
      SerialRun env cd ed n pods (serialLoop env cd ed n pods script).1
        (serialLoop env cd ed n pods script).2 := by
  induction pods with
  | nil => intro ed n script; simpa [serialLoop] using SerialRun.done ed n
  | cons pod pods ih =>
    intro ed n script
    unfold serialLoop
    cases hres : resolveTargetContainer ed pod with
    | none => simpa using SerialRun.panic ed n pod pods hres
    | some ed1 =>
      dsimp only
      obtain ⟨k, hc⟩ := superviseSerial_cases env ed1 cd pod n script
      rcases hsup : superviseSerial env ed1 cd pod n script with ⟨ltr, x, rest⟩
      rw [hsup] at hc
      dsimp only at hc
      rcases hc with ⟨h1, h2⟩ | ⟨msg, hm, h1, h2⟩ | ⟨msg, hm, h1, h2⟩ | ⟨h1, h2⟩
      · subst h1 h2
        simp only
        cases hk : killStressMemorySerial env n ed1.TargetContainer pod.Name pod.Namespace
            ed1.ChaosKillCmd with
        | mk ktr e =>
          cases e with
          | some err =>
            have := @SerialRun.revertFailed env cd ed ed1 n pod pods k err hres (by rw [hk])
            simpa [hk, List.append_assoc] using this
          | none =>
            have := @SerialRun.next env cd ed ed1 n pod pods k _ _ hres (by rw [hk])
              (ih ed1 (n + 1) rest)
            simpa [hk, List.append_assoc] using this
      · subst h1 h2
        simpa [List.append_assoc] using @SerialRun.oom env cd ed ed1 n pod pods k msg hres hm
      · subst h1 h2
        simpa [List.append_assoc] using
          @SerialRun.stressFailed env cd ed ed1 n pod pods k msg hres hm
      · subst h1 h2
        simpa [List.append_assoc] using @SerialRun.aborted env cd ed ed1 n pod pods k hres

theorem superviseParallel_cases (env : Env) (ed : ExperimentDetails) (cd : ChaosDetails)
    (pods : List Pod) (script : List SelectCase) :
    ∃ k : Nat,
      ((superviseParallel env ed cd pods script).1 = quiet k ++ [Effect.recvEndTime] ∧
        (superviseParallel env ed cd pods script).2 = LoopExit.breakLoop) ∨
      (∃ msg, stringsContains msg "137" = true ∧
        (superviseParallel env ed cd pods script).1 = quiet k ++ [Effect.recvStressErr (some msg)] ∧
        (superviseParallel env ed cd pods script).2 = LoopExit.stop (Outcome.returned none)) ∨
      (∃ msg, stringsContains msg "137" = false ∧
        (superviseParallel env ed cd pods script).1 = quiet k ++ [Effect.recvStressErr (some msg)] ∧
        (superviseParallel env ed cd pods script).2 =
          LoopExit.stop (Outcome.returned (some (parallelInjectError msg)))) ∨
      ((superviseParallel env ed cd pods script).1 = quiet k ++ Effect.recvSignChan ::
          ((killStressMemoryParallel env 0 ed.TargetContainer pods ed.ChaosKillCmd).1 ++
            stoppedEffects env cd parallelAbortError) ∧
        (superviseParallel env ed cd pods script).2 = LoopExit.stop (Outcome.exited 1)) := by
  induction script with
  | nil => exact ⟨0, Or.inl (by simp [superviseParallel, quiet])⟩
  | cons c rest ih =>
    cases c with
    | endTime => exact ⟨0, Or.inl (by simp [superviseParallel, quiet])⟩
    | signChan =>
      exact ⟨0, Or.inr (Or.inr (Or.inr (by simp [superviseParallel, quiet])))⟩
    | stressErr e =>
      cases e with
      | none =>
        obtain ⟨k, h⟩ := ih
        refine ⟨k + 1, ?_⟩
        simp only [superviseParallel, ← quiet_succ, List.cons_append]
        rcases h with h | ⟨msg, hm, h1, h2⟩ | ⟨msg, hm, h1, h2⟩ | h
        · exact Or.inl ⟨by rw [h.1], h.2⟩
        · exact Or.inr (Or.inl ⟨msg, hm, by rw [h1], h2⟩)
        · exact Or.inr (Or.inr (Or.inl ⟨msg, hm, by rw [h1], h2⟩))
        · exact Or.inr (Or.inr (Or.inr ⟨by rw [h.1], h.2⟩))
      | some msg =>
        refine ⟨0, ?_⟩
        by_cases hm : stringsContains msg "137" = true
        · exact Or.inr (Or.inl ⟨msg, hm, by simp [superviseParallel, hm, quiet]⟩)
        · have hm' : stringsContains msg "137" = false := by simpa using hm
          exact Or.inr (Or.inr (Or.inl ⟨msg, hm', by simp [superviseParallel, hm', quiet]⟩))

theorem duringChaosProbes_fst (env : Env) (rd : ResultDetails) :
    (duringChaosProbes env rd).1 = [] ∨ (duringChaosProbes env rd).1 = [Effect.runProbes] := by
  unfold duringChaosProbes
  split <;> simp

/-- The ways a call of `injectChaosInSerialMode` can go. -/
theorem serialMode_cases (env : Env) (ed : ExperimentDetails) (pods : List Pod)
    (rd : ResultDetails) (cd : ChaosDetails) (script : List SelectCase) :
    (∃ err, (duringChaosProbes env rd).2 = some err ∧
      injectChaosInSerialMode env ed pods rd cd script =
        ((duringChaosProbes env rd).1, Outcome.returned (some err))) ∨
    ((duringChaosProbes env rd).2 = none ∧ env.injectPending = true ∧
      injectChaosInSerialMode env ed pods rd cd script =
        ((duringChaosProbes env rd).1 ++ [Effect.recvInject, Effect.sleep 10],
          Outcome.exited 0)) ∨
    ((duringChaosProbes env rd).2 = none ∧ env.injectPending = false ∧
      ∃ tr, (injectChaosInSerialMode env ed pods rd cd script).1 =
          (duringChaosProbes env rd).1 ++ tr ∧
        SerialRun env cd ed 0 pods tr (injectChaosInSerialMode env ed pods rd cd script).2) := by
  unfold injectChaosInSerialMode
  rcases hp : duringChaosProbes env rd with ⟨ptr, _ | err⟩
  · by_cases hi : env.injectPending = true
    · exact Or.inr (Or.inl (by simp [hi]))
    · refine Or.inr (Or.inr ⟨rfl, by simpa using hi, (serialLoop env cd ed 0 pods script).1, ?_⟩)
      simp only [hi]
      exact ⟨rfl, serialLoop_run env cd pods ed 0 script⟩
  · exact Or.inl ⟨err, rfl, rfl⟩

/-- The ways a call of `injectChaosInParallelMode` can go. -/
theorem parallelMode_cases (env : Env) (ed : ExperimentDetails) (pods : List Pod)
    (rd : ResultDetails) (cd : ChaosDetails) (script : List SelectCase) :
    (∃ err, (duringChaosProbes env rd).2 = some err ∧
      injectChaosInParallelMode env ed pods rd cd script =
        ((duringChaosProbes env rd).1, Outcome.returned (some err))) ∨
    ((duringChaosProbes env rd).2 = none ∧ env.injectPending = true ∧
      injectChaosInParallelMode env ed pods rd cd script =
        ((duringChaosProbes env rd).1 ++ [Effect.recvInject, Effect.sleep 10],
          Outcome.exited 0)) ∨
    ((duringChaosProbes env rd).2 = none ∧ env.injectPending = false ∧
      (parallelInjectLoop ed pods).2 = none ∧
      injectChaosInParallelMode env ed pods rd cd script =
        ((duringChaosProbes env rd).1 ++ (parallelInjectLoop ed pods).1, Outcome.panicked)) ∨
    ((duringChaosProbes env rd).2 = none ∧ env.injectPending = false ∧
      ∃ ed1 tr, (parallelInjectLoop ed pods).2 = some ed1 ∧
        (injectChaosInParallelMode env ed pods rd cd script).1 =
          (duringChaosProbes env rd).1 ++ tr ∧
        ParallelRun env cd ed1 pods (parallelInjectLoop ed pods).1 tr
          (injectChaosInParallelMode env ed pods rd cd script).2) := by
  rcases hp : duringChaosProbes env rd with ⟨ptr, _ | err⟩
  · by_cases hi : env.injectPending = true
    · refine Or.inr (Or.inl ⟨rfl, hi, ?_⟩)
      simp [injectChaosInParallelMode, hp, hi]
    · have hi' : env.injectPending = false := by simpa using hi
      rcases hl : parallelInjectLoop ed pods with ⟨itr, _ | ed1⟩
      · refine Or.inr (Or.inr (Or.inl ⟨rfl, hi', rfl, ?_⟩))
        simp [injectChaosInParallelMode, hp, hi', hl]
      · refine Or.inr (Or.inr (Or.inr ⟨rfl, hi', ed1, ?_⟩))
        obtain ⟨k, hc⟩ := superviseParallel_cases env ed1 cd pods script
        rcases hsup : superviseParallel env ed1 cd pods script with ⟨ltr, x⟩
        rw [hsup] at hc
        dsimp only at hc
        rcases hc with ⟨h1, h2⟩ | ⟨msg, hm, h1, h2⟩ | ⟨msg, hm, h1, h2⟩ | ⟨h1, h2⟩
        · subst h1 h2
          refine ⟨itr ++ quiet k ++ [Effect.recvEndTime] ++
            (killStressMemoryParallel env 0 ed1.TargetContainer pods ed1.ChaosKillCmd).1, rfl, ?_, ?_⟩
          · simp [injectChaosInParallelMode, hp, hi', hl, hsup, List.append_assoc]
          · simp only [injectChaosInParallelMode, hp, hi', hl, hsup]
            exact ParallelRun.timeUp k
        · subst h1 h2
          refine ⟨itr ++ quiet k ++ [Effect.recvStressErr (some msg)], rfl, ?_, ?_⟩
          · simp [injectChaosInParallelMode, hp, hi', hl, hsup, List.append_assoc]
          · simp only [injectChaosInParallelMode, hp, hi', hl, hsup]
            exact ParallelRun.oom k msg hm
        · subst h1 h2
          refine ⟨itr ++ quiet k ++ [Effect.recvStressErr (some msg)], rfl, ?_, ?_⟩
          · simp [injectChaosInParallelMode, hp, hi', hl, hsup, List.append_assoc]
          · simp only [injectChaosInParallelMode, hp, hi', hl, hsup]
            exact ParallelRun.stressFailed k msg hm
        · subst h1 h2
          refine ⟨itr ++ quiet k ++ Effect.recvSignChan ::
            ((killStressMemoryParallel env 0 ed1.TargetContainer pods ed1.ChaosKillCmd).1 ++
              stoppedEffects env cd parallelAbortError), rfl, ?_, ?_⟩
          · simp [injectChaosInParallelMode, hp, hi', hl, hsup, List.append_assoc]
          · simp only [injectChaosInParallelMode, hp, hi', hl, hsup]
            exact ParallelRun.aborted k
  · exact Or.inl ⟨err, rfl, by simp [injectChaosInParallelMode, hp]⟩

/-! ## Container resolution -/

theorem resolve_some {ed ed1 : ExperimentDetails} {pod : Pod}
    (h : resolveTargetContainer ed pod = some ed1) :
    ed1 = { ed with TargetContainer := containerFor ed pod } := by
  unfold resolveTargetContainer at h
  by_cases hp : ed.IsTargetContainerProvided = true
  · simp [hp] at h
    subst h
    cases ed
    simp_all [containerFor]
  · cases hC : pod.Containers with
    | nil => simp [hp, hC] at h
    | cons c cs =>
      simp [hp, hC] at h
      subst h
      simp [containerFor, hp, firstContainerName, hC]

theorem resolve_of_containers {ed : ExperimentDetails} {pod : Pod}
    (h : ed.IsTargetContainerProvided = true ∨ pod.Containers ≠ []) :
    ∃ ed1, resolveTargetContainer ed pod = some ed1 := by
  unfold resolveTargetContainer
  by_cases hp : ed.IsTargetContainerProvided = true
  · exact ⟨ed, by simp [hp]⟩
  · cases hC : pod.Containers with
    | nil => rcases h with h | h
             · exact absurd h hp
             · exact absurd hC h
    | cons c cs => simp [hp]

theorem containerFor_resolved (ed : ExperimentDetails) (c : String) (p : Pod)
    (hc : ed.IsTargetContainerProvided = true → c = ed.TargetContainer) :
    containerFor { ed with TargetContainer := c } p = containerFor ed p := by
  unfold containerFor
  by_cases hp : ed.IsTargetContainerProvided = true
  · simp [hp, hc hp]
  · simp [hp]

theorem containerFor_of_provided (ed : ExperimentDetails) (p : Pod)
    (hp : ed.IsTargetContainerProvided = true) : containerFor ed p = ed.TargetContainer := by
  simp [containerFor, hp]

/-! ## Serial mode: what a run looks like after each kind of event -/

theorem revertedTargets_killSerial_ok (env : Env) (n : Nat) (c p ns cmd : String)
    (h : (killStressMemorySerial env n c p ns cmd).2 = none) :
    revertedTargets (killStressMemorySerial env n c p ns cmd).1 = [p] := by
  rw [revertedTargets_killSerial, (killSerial_snd_eq_none ..).1 h]
  simp

/-- Serial mode, a stress error is received: the trace ends there, the target under
supervision is started and marked injected but neither killed nor marked reverted
(all earlier targets are), and the call returns nil for an error containing "137"
and the injection error otherwise. -/
theorem serialRun_stressErr {env : Env} {cd : ChaosDetails} {ed : ExperimentDetails} {n : Nat}
    {pods : List Pod} {tr : List Effect} {o : Outcome} (h : SerialRun env cd ed n pods tr o)
    (msg : String) (hm : Effect.recvStressErr (some msg) ∈ tr) :
    (∃ pre, tr = pre ++ [Effect.recvStressErr (some msg)]) ∧
    (∃ c p ns, stressStarts tr = killExecs tr ++ [(c, p, ns)] ∧
      injectedTargets tr = revertedTargets tr ++ [p]) ∧
    (stringsContains msg "137" = true → o = Outcome.returned none) ∧
    (stringsContains msg "137" = false → ∃ target, o = Outcome.returned (some
      (GoError.Error ErrorType.ErrorTypeChaosInject target
        ("failed to stress memory of target pod: " ++ msg)))) := by
  induction h with
  | done ed n => simp at hm
  | panic ed n pod pods hres => simp at hm
  | oom ed ed1 n pod pods k msg1 hres hmsg =>
    have : msg = msg1 := by simpa using hm
    subst this
    refine ⟨⟨_, rfl⟩, ⟨ed1.TargetContainer, pod.Name, pod.Namespace, by simp⟩, fun _ => rfl, ?_⟩
    intro h'; rw [hmsg] at h'; cases h'
  | stressFailed ed ed1 n pod pods k msg1 hres hmsg =>
    have : msg = msg1 := by simpa using hm
    subst this
    refine ⟨⟨_, rfl⟩, ⟨ed1.TargetContainer, pod.Name, pod.Namespace, by simp⟩, ?_, fun _ => ⟨_, rfl⟩⟩
    intro h'; rw [hmsg] at h'; cases h'
  | aborted ed ed1 n pod pods k hres => simp at hm
  | revertFailed ed ed1 n pod pods k err hres hkill => simp at hm
  | next ed ed1 n pod pods k rtr o hres hkill hrest ih =>
    have hm' : Effect.recvStressErr (some msg) ∈ rtr := by simpa using hm
    obtain ⟨⟨pre, hpre⟩, ⟨c, p, ns, h1, h2⟩, h3, h4⟩ := ih hm'
    refine ⟨⟨(serialStart ed ed1 pod ++ quiet k ++ [Effect.recvEndTime] ++
      (killStressMemorySerial env n ed1.TargetContainer pod.Name pod.Namespace
        ed1.ChaosKillCmd).1) ++ pre, by rw [hpre]; simp⟩, ⟨c, p, ns, ?_, ?_⟩, h3, h4⟩
    · simp [h1]
    · simp [h2, revertedTargets_killSerial_ok _ _ _ _ _ _ hkill]

/-- Serial mode, no stress error and no abort signal is received and nil is returned:
every pod of the list was started, marked injected, killed in the container of its
stress command and marked reverted. -/
theorem serialRun_complete {env : Env} {cd : ChaosDetails} {ed : ExperimentDetails} {n : Nat}
    {pods : List Pod} {tr : List Effect} {o : Outcome} (h : SerialRun env cd ed n pods tr o)
    (ho : o = Outcome.returned none) (hq : ∀ msg, Effect.recvStressErr (some msg) ∉ tr) :
    killExecs tr = stressStarts tr ∧ revertedTargets tr = injectedTargets tr ∧
      injectedTargets tr = pods.map (fun p => p.Name) := by
  induction h with
  | done ed n => simp
  | panic ed n pod pods hres => cases ho
  | oom ed ed1 n pod pods k msg1 hres hmsg => exact absurd (by simp) (hq msg1)
  | stressFailed ed ed1 n pod pods k msg1 hres hmsg => cases ho
  | aborted ed ed1 n pod pods k hres => cases ho
  | revertFailed ed ed1 n pod pods k err hres hkill => cases ho
  | next ed ed1 n pod pods k rtr o hres hkill hrest ih =>
    have hq' : ∀ msg, Effect.recvStressErr (some msg) ∉ rtr := by
      intro msg hmem
      exact hq msg (by simp [hmem])
    obtain ⟨h1, h2, h3⟩ := ih ho hq'
    simp [h1, h2, h3, revertedTargets_killSerial_ok _ _ _ _ _ _ hkill]

/-- Serial mode, the abort signal is received: the process exits with status 1; after
the signal no stress command is started, the kill command is executed on the target
under supervision (the only one started and not yet killed), the result is set to
"Stopped" and the chaos result is updated. -/
theorem serialRun_abort {env : Env} {cd : ChaosDetails} {ed : ExperimentDetails} {n : Nat}
    {pods : List Pod} {tr : List Effect} {o : Outcome} (h : SerialRun env cd ed n pods tr o)
    (hm : Effect.recvSignChan ∈ tr) :
    o = Outcome.exited 1 ∧
    ∃ pre kills failStep errCode,
      tr = pre ++ Effect.recvSignChan :: (kills ++
        [Effect.setResultAfterCompletion "Stopped" "Stopped" failStep errCode,
          Effect.chaosResult "EOT"]) ∧
      stressStarts kills = [] ∧
      ∃ x, killExecs kills = [x] ∧ stressStarts pre = killExecs pre ++ [x] := by
  induction h with
  | done ed n => simp at hm
  | panic ed n pod pods hres => simp at hm
  | oom ed ed1 n pod pods k msg1 hres hmsg => simp at hm
  | stressFailed ed ed1 n pod pods k msg1 hres hmsg => simp at hm
  | aborted ed ed1 n pod pods k hres =>
    refine ⟨rfl, serialStart ed ed1 pod ++ quiet k,
      (killStressMemorySerial env n ed1.TargetContainer pod.Name pod.Namespace
        ed1.ChaosKillCmd).1,
      (env.getRootCauseAndErrorCode (serialAbortError ed1 pod) cd.Phase).1,
      (env.getRootCauseAndErrorCode (serialAbortError ed1 pod) cd.Phase).2,
      rfl, by simp, _, killExecs_killSerial .., by simp⟩
  | revertFailed ed ed1 n pod pods k err hres hkill => simp at hm
  | next ed ed1 n pod pods k rtr o hres hkill hrest ih =>
    have hm' : Effect.recvSignChan ∈ rtr := by simpa using hm
    obtain ⟨ho, pre, kills, fs, ec, htr, hs, x, hk, hpre⟩ := ih hm'
    refine ⟨ho, (serialStart ed ed1 pod ++ quiet k ++ [Effect.recvEndTime] ++
      (killStressMemorySerial env n ed1.TargetContainer pod.Name pod.Namespace
        ed1.ChaosKillCmd).1) ++ pre, kills, fs, ec, by rw [htr]; simp, hs, x, hk, ?_⟩
    simp [hpre]

theorem serialOrder_cons (pod : Pod) (pods : List Pod) :
    serialOrder (pod :: pods) =
      (Phase.inject, pod.Name, pod.Namespace) :: (Phase.revert, pod.Name, pod.Namespace) ::
        serialOrder pods := by
  simp [serialOrder]

/-- Serial mode: the injection and revert events of a run are an initial part of
"inject pod 0, revert pod 0, inject pod 1, revert pod 1, ...", and the targets
marked injected are an initial part of the pod list. -/
theorem serialRun_lifecycle {env : Env} {cd : ChaosDetails} {ed : ExperimentDetails} {n : Nat}
    {pods : List Pod} {tr : List Effect} {o : Outcome} (h : SerialRun env cd ed n pods tr o) :
    lifecycle tr <+: serialOrder pods ∧ injectedTargets tr <+: pods.map (fun p => p.Name) := by
  have one : ∀ (pod : Pod) (pods : List Pod),
      [(Phase.inject, pod.Name, pod.Namespace)] <+: serialOrder (pod :: pods) := by
    intro pod pods
    exact ⟨(Phase.revert, pod.Name, pod.Namespace) :: serialOrder pods,
      by simp [serialOrder_cons]⟩
  have two : ∀ (pod : Pod) (pods : List Pod),
      [(Phase.inject, pod.Name, pod.Namespace), (Phase.revert, pod.Name, pod.Namespace)]
        <+: serialOrder (pod :: pods) := by
    intro pod pods
    exact ⟨serialOrder pods, by simp [serialOrder_cons]⟩
  have nm : ∀ (pod : Pod) (pods : List Pod),
      [pod.Name] <+: (pod :: pods).map (fun p => p.Name) := by
    intro pod pods
    exact ⟨pods.map (fun p => p.Name), by simp⟩
  induction h with
  | done ed n => simp
  | panic ed n pod pods hres => simp
  | oom ed ed1 n pod pods k msg1 hres hmsg =>
    exact ⟨by simpa using one pod pods, by simp⟩
  | stressFailed ed ed1 n pod pods k msg1 hres hmsg =>
    exact ⟨by simpa using one pod pods, by simp⟩
  | aborted ed ed1 n pod pods k hres =>
    exact ⟨by simpa using two pod pods, by simp⟩
  | revertFailed ed ed1 n pod pods k err hres hkill =>
    exact ⟨by simpa using two pod pods, by simp⟩
  | next ed ed1 n pod pods k rtr o hres hkill hrest ih =>
    obtain ⟨⟨t1, h1⟩, ⟨t2, h2⟩⟩ := ih
    refine ⟨⟨t1, ?_⟩, ⟨t2, ?_⟩⟩
    · simp [serialOrder_cons, ← h1]
    · simp [← h2]

/-- Serial mode, the `i`-th kill command fails: it is the kill of the pod at position
`i`, and no later pod is started; the call returns the revert error of that pod,
propagated with the text "could not revert memory stress", unless the kill was
made on abort, in which case the process exits with status 1. -/
theorem serialRun_revertFailed {env : Env} {cd : ChaosDetails} {ed : ExperimentDetails} {n : Nat}
    {pods : List Pod} {tr : List Effect} {o : Outcome} (h : SerialRun env cd ed n pods tr o)
    (i : Nat) (hi : i < (killExecs tr).length) (hf : (env.exec (n + i)).failed = true) :
    (stressStarts tr).length = i + 1 ∧
    ∃ pod c, pods[i]? = some pod ∧ (killExecs tr)[i]? = some (c, pod.Name, pod.Namespace) ∧
      (Effect.recvSignChan ∈ tr → o = Outcome.exited 1) ∧
      (Effect.recvSignChan ∉ tr →
        o = Outcome.returned (some (GoError.Propagate
          (GoError.Error ErrorType.ErrorTypeChaosRevert
            ("\x7bpodName: " ++ pod.Name ++ ", namespace: " ++ pod.Namespace ++ "\x7d")
            ("failed to revert chaos: " ++ (env.exec (n + i)).out))
          "could not revert memory stress"))) := by
  induction h generalizing i with
  | done ed n => simp at hi
  | panic ed n pod pods hres => simp at hi
  | oom ed ed1 n pod pods k msg1 hres hmsg => simp at hi
  | stressFailed ed ed1 n pod pods k msg1 hres hmsg => simp at hi
  | aborted ed ed1 n pod pods k hres =>
    have hi0 : i = 0 := by simpa using hi
    subst hi0
    exact ⟨by simp, pod, ed1.TargetContainer, by simp, by simp, fun _ => rfl,
      fun hn => absurd (by simp) hn⟩
  | revertFailed ed ed1 n pod pods k err hres hkill =>
    have hi0 : i = 0 := by simpa using hi
    subst hi0
    refine ⟨by simp, pod, ed1.TargetContainer, by simp, by simp,
      fun hs => absurd hs (by simp), fun _ => ?_⟩
    rw [((killSerial_snd_eq_some ..).1 hkill).2]
    rfl
  | next ed ed1 n pod pods k rtr o hres hkill hrest ih =>
    cases i with
    | zero =>
      have hok := (killSerial_snd_eq_none ..).1 hkill
      simp [hok] at hf
    | succ j =>
      have hj : j < (killExecs rtr).length := by simpa using hi
      have hfj : (env.exec (n + 1 + j)).failed = true := by
        rw [show n + 1 + j = n + (j + 1) by omega]; exact hf
      obtain ⟨h1, pod1, c, hp, hk, h2, h3⟩ := ih j hj hfj
      refine ⟨by simp [h1], pod1, c, by simpa using hp, by simpa using hk,
        fun hs => h2 (by simpa using hs), fun hs => ?_⟩
      rw [h3 (fun hmem => hs (by simp [hmem])), show n + 1 + j = n + (j + 1) by omega]

/-- Serial mode: every stress command is started in the configured container when one
was provided, and else in the first container of its own pod. -/
theorem serialRun_containers {env : Env} {cd : ChaosDetails} {ed : ExperimentDetails} {n : Nat}
    {pods : List Pod} {tr : List Effect} {o : Outcome} (h : SerialRun env cd ed n pods tr o) :
    stressStarts tr <+: pods.map (fun p => (containerFor ed p, p.Name, p.Namespace)) := by
  have key : ∀ (ed ed1 : ExperimentDetails) (pod : Pod),
      resolveTargetContainer ed pod = some ed1 →
      ed1.TargetContainer = containerFor ed pod ∧
        ∀ p, containerFor ed1 p = containerFor ed p := by
    intro ed ed1 pod hres
    have he := resolve_some hres
    refine ⟨by rw [he], fun p => ?_⟩
    rw [he]
    exact containerFor_resolved ed _ p (fun hp => containerFor_of_provided ed pod hp)
  induction h with
  | done ed n => simp
  | panic ed n pod pods hres => simp
  | oom ed ed1 n pod pods k msg1 hres hmsg =>
    exact ⟨pods.map (fun p => (containerFor ed p, p.Name, p.Namespace)),
      by simp [(key ed ed1 pod hres).1]⟩
  | stressFailed ed ed1 n pod pods k msg1 hres hmsg =>
    exact ⟨pods.map (fun p => (containerFor ed p, p.Name, p.Namespace)),
      by simp [(key ed ed1 pod hres).1]⟩
  | aborted ed ed1 n pod pods k hres =>
    exact ⟨pods.map (fun p => (containerFor ed p, p.Name, p.Namespace)),
      by simp [(key ed ed1 pod hres).1]⟩
  | revertFailed ed ed1 n pod pods k err hres hkill =>
    exact ⟨pods.map (fun p => (containerFor ed p, p.Name, p.Namespace)),
      by simp [(key ed ed1 pod hres).1]⟩
  | next ed ed1 n pod pods k rtr o hres hkill hrest ih =>
    obtain ⟨t, ht⟩ := ih
    simp only [(key ed ed1 pod hres).2] at ht
    exact ⟨t, by simp [(key ed ed1 pod hres).1, ← ht]⟩

/-! ## The injection loop of parallel mode -/

theorem parallelInjectLoop_obs (pods : List Pod) : ∀ ed : ExperimentDetails,
    killExecs (parallelInjectLoop ed pods).1 = [] ∧
    injectedTargets (parallelInjectLoop ed pods).1 = [] ∧
    revertedTargets (parallelInjectLoop ed pods).1 = [] ∧
    (∀ msg, Effect.recvStressErr (some msg) ∉ (parallelInjectLoop ed pods).1) ∧
    Effect.recvSignChan ∉ (parallelInjectLoop ed pods).1 ∧
    stressStarts (parallelInjectLoop ed pods).1 <+:
      pods.map (fun p => (containerFor ed p, p.Name, p.Namespace)) := by
  induction pods with
  | nil => intro ed; simp [parallelInjectLoop]
  | cons pod pods ih =>
    intro ed
    unfold parallelInjectLoop
    cases hres : resolveTargetContainer ed pod with
    | none => simp
    | some ed1 =>
      have he := resolve_some hres
      obtain ⟨h1, h2, h3, h4, h5, t, h6⟩ := ih ed1
      have hcf : ∀ p, containerFor ed1 p = containerFor ed p := by
        intro p
        rw [he]
        exact containerFor_resolved ed _ p (fun hp => containerFor_of_provided ed pod hp)
      have htc : ed1.TargetContainer = containerFor ed pod := by rw [he]
      refine ⟨by simp [h1, goStress], by simp [h2, goStress], by simp [h3, goStress],
        fun msg => by simp [h4, goStress], by simp [h5, goStress], ⟨t, ?_⟩⟩
      simp only [hcf] at h6
      simp [goStress, htc, ← h6]

theorem parallelInjectLoop_some (pods : List Pod) : ∀ (ed ed1 : ExperimentDetails),
    (parallelInjectLoop ed pods).2 = some ed1 →
    stressStarts (parallelInjectLoop ed pods).1 =
        pods.map (fun p => (containerFor ed p, p.Name, p.Namespace)) ∧
      ed1 = { ed with TargetContainer :=
        (pods.getLast?.map (containerFor ed)).getD ed.TargetContainer } := by
  induction pods with
  | nil =>
    intro ed ed1 h
    simp [parallelInjectLoop] at h
    subst h
    simp [parallelInjectLoop]
  | cons pod pods ih =>
    intro ed ed1 h
    unfold parallelInjectLoop at h ⊢
    cases hres : resolveTargetContainer ed pod with
    | none => simp [hres] at h
    | some e1 =>
      simp only [hres] at h ⊢
      have he := resolve_some hres
      have hcf : ∀ p, containerFor e1 p = containerFor ed p := by
        intro p
        rw [he]
        exact containerFor_resolved ed _ p (fun hp => containerFor_of_provided ed pod hp)
      have htc : e1.TargetContainer = containerFor ed pod := by rw [he]
      obtain ⟨h1, h2⟩ := ih e1 ed1 h
      refine ⟨by simp [goStress, htc, h1, hcf], ?_⟩
      have hfun : containerFor e1 = containerFor ed := funext hcf
      rw [h2, hfun, htc]
      cases pods with
      | nil => simp [he]
      | cons q qs =>
        obtain ⟨l, hl⟩ : ∃ l, (q :: qs).getLast? = some l :=
          ⟨(q :: qs).getLast (by simp), List.getLast?_eq_getLast _ _⟩
        simp [he, List.getLast?_cons_cons, hl]

theorem parallelInjectLoop_total (pods : List Pod) : ∀ ed : ExperimentDetails,
    (ed.IsTargetContainerProvided = true ∨ ∀ p ∈ pods, p.Containers ≠ []) →
    ∃ ed1, (parallelInjectLoop ed pods).2 = some ed1 := by
  induction pods with
  | nil => intro ed _; exact ⟨ed, by simp [parallelInjectLoop]⟩
  | cons pod pods ih =>
    intro ed h
    have hr : ed.IsTargetContainerProvided = true ∨ pod.Containers ≠ [] := by
      rcases h with h | h
      · exact Or.inl h
      · exact Or.inr (h pod (by simp))
    obtain ⟨e1, hres⟩ := resolve_of_containers hr
    have he := resolve_some hres
    have h' : e1.IsTargetContainerProvided = true ∨ ∀ p ∈ pods, p.Containers ≠ [] := by
      rcases h with h | h
      · exact Or.inl (by rw [he]; exact h)
      · exact Or.inr (fun p hp => h p (by simp [hp]))
    obtain ⟨ed1, h1⟩ := ih e1 h'
    exact ⟨ed1, by unfold parallelInjectLoop; simp [hres, h1]⟩

/-! ## Observations of the batch revert -/

theorem mem_individualReverts (env : Env) (c cmd : String) (e : Effect) (pods : List Pod) :
    ∀ n : Nat, e ∈ ((individualReverts env n c pods cmd).map Prod.fst).flatten →
      (∃ p ns, e = Effect.execKill c p ns ["/bin/sh", "-c", cmd]) ∨
        (∃ t, e = Effect.setTargets t "reverted" "pod") := by
  induction pods with
  | nil => intro n h; simp [individualReverts] at h
  | cons pod pods ih =>
    intro n h
    have ih' := ih (n + 1)
    simp only [individualReverts, List.map_map] at ih'
    simp only [individualReverts, List.enumFrom_cons, List.map_cons, List.flatten_cons,
      List.mem_append, List.map_map] at h
    rcases h with h | h
    · unfold killStressMemorySerial at h
      by_cases hf : (env.exec n).failed = true
      · simp [hf] at h
        exact Or.inl ⟨_, _, h⟩
      · simp [hf] at h
        rcases h with h | h
        · exact Or.inl ⟨_, _, h⟩
        · exact Or.inr ⟨_, h⟩
    · exact ih' h

@[simp]
theorem recvSome_not_mem_killParallel (msg : String) (env : Env) (n : Nat)
    (c : String) (pods : List Pod) (cmd : String) :
    Effect.recvStressErr (some msg) ∉ (killStressMemoryParallel env n c pods cmd).1 := by
  intro h
  rw [killParallel_fst] at h
  rcases mem_individualReverts env c cmd _ pods n h with ⟨p, ns, h⟩ | ⟨t, h⟩ <;> cases h

@[simp]
theorem recvSignChan_not_mem_killParallel (env : Env) (n : Nat)
    (c : String) (pods : List Pod) (cmd : String) :
    Effect.recvSignChan ∉ (killStressMemoryParallel env n c pods cmd).1 := by
  intro h
  rw [killParallel_fst] at h
  rcases mem_individualReverts env c cmd _ pods n h with ⟨p, ns, h⟩ | ⟨t, h⟩ <;> cases h

@[simp]
theorem killExecs_killParallel (env : Env) (n : Nat) (c : String) (pods : List Pod)
    (cmd : String) :
    killExecs (killStressMemoryParallel env n c pods cmd).1 =
      pods.map fun p => (c, p.Name, p.Namespace) := by
  rw [killParallel_fst, killExecs_individualReverts]

@[simp]
theorem stressStarts_killParallel (env : Env) (n : Nat) (c : String) (pods : List Pod)
    (cmd : String) : stressStarts (killStressMemoryParallel env n c pods cmd).1 = [] := by
  rw [killParallel_fst, stressStarts_individualReverts]

@[simp]
theorem injectedTargets_killParallel (env : Env) (n : Nat) (c : String)
    (pods : List Pod) (cmd : String) :
    injectedTargets (killStressMemoryParallel env n c pods cmd).1 = [] := by
  rw [killParallel_fst, injectedTargets_individualReverts]

/-! ## Observations of the probe prefix -/

@[simp]
theorem stressStarts_probes (env : Env) (rd : ResultDetails) :
    stressStarts (duringChaosProbes env rd).1 = [] := by
  rcases duringChaosProbes_fst env rd with h | h <;> simp [h]

@[simp]
theorem killExecs_probes (env : Env) (rd : ResultDetails) :
    killExecs (duringChaosProbes env rd).1 = [] := by
  rcases duringChaosProbes_fst env rd with h | h <;> simp [h]

@[simp]
theorem revertedTargets_probes (env : Env) (rd : ResultDetails) :
    revertedTargets (duringChaosProbes env rd).1 = [] := by
  rcases duringChaosProbes_fst env rd with h | h <;> simp [h]

@[simp]
theorem injectedTargets_probes (env : Env) (rd : ResultDetails) :
    injectedTargets (duringChaosProbes env rd).1 = [] := by
  rcases duringChaosProbes_fst env rd with h | h <;> simp [h]

@[simp]
theorem lifecycle_probes (env : Env) (rd : ResultDetails) :
    lifecycle (duringChaosProbes env rd).1 = [] := by
  rcases duringChaosProbes_fst env rd with h | h <;> simp [h]

@[simp]
theorem recvSome_not_mem_probes (msg : String) (env : Env) (rd : ResultDetails) :
    Effect.recvStressErr (some msg) ∉ (duringChaosProbes env rd).1 := by
  rcases duringChaosProbes_fst env rd with h | h <;> simp [h]

@[simp]
theorem recvSignChan_not_mem_probes (env : Env) (rd : ResultDetails) :
    Effect.recvSignChan ∉ (duringChaosProbes env rd).1 := by
  rcases duringChaosProbes_fst env rd with h | h <;> simp [h]

/-! ## A stress error is received -/

/-- Parallel mode, a stress error is received: the trace ends there, no kill command
was executed and no target marked reverted, and the call returns nil for an error
containing "137" and the injection error otherwise. -/
theorem parallelRun_stressErr {env : Env} {cd : ChaosDetails} {ed1 : ExperimentDetails}
    {pods : List Pod} {itr tr : List Effect} {o : Outcome}
    (h : ParallelRun env cd ed1 pods itr tr o)
    (hq : ∀ msg, Effect.recvStressErr (some msg) ∉ itr) (hk : killExecs itr = [])
    (hr : revertedTargets itr = [])
    (msg : String) (hm : Effect.recvStressErr (some msg) ∈ tr) :
    (∃ pre, tr = pre ++ [Effect.recvStressErr (some msg)]) ∧
    killExecs tr = [] ∧ revertedTargets tr = [] ∧ stressStarts tr = stressStarts itr ∧
    (stringsContains msg "137" = true → o = Outcome.returned none) ∧
    (stringsContains msg "137" = false →
      o = Outcome.returned (some (parallelInjectError msg))) := by
  cases h with
  | oom k msg1 hmsg =>
    have : msg = msg1 := by simpa [hq] using hm
    subst this
    refine ⟨⟨_, rfl⟩, by simp [hk], by simp [hr], by simp, fun _ => rfl, ?_⟩
    intro h'; rw [hmsg] at h'; cases h'
  | stressFailed k msg1 hmsg =>
    have : msg = msg1 := by simpa [hq] using hm
    subst this
    refine ⟨⟨_, rfl⟩, by simp [hk], by simp [hr], by simp, ?_, fun _ => rfl⟩
    intro h'; rw [hmsg] at h'; cases h'
  | aborted k => simp [hq] at hm
  | timeUp k => simp [hq] at hm

/-- Serial mode as a whole, a stress error is received. -/
theorem serialMode_stressErr (env : Env) (ed : ExperimentDetails) (pods : List Pod)
    (rd : ResultDetails) (cd : ChaosDetails) (script : List SelectCase) (msg : String)
    (hm : Effect.recvStressErr (some msg) ∈ (injectChaosInSerialMode env ed pods rd cd script).1) :
    (∃ pre, (injectChaosInSerialMode env ed pods rd cd script).1 =
      pre ++ [Effect.recvStressErr (some msg)]) ∧
    (∃ c p ns,
      stressStarts (injectChaosInSerialMode env ed pods rd cd script).1 =
        killExecs (injectChaosInSerialMode env ed pods rd cd script).1 ++ [(c, p, ns)] ∧
      injectedTargets (injectChaosInSerialMode env ed pods rd cd script).1 =
        revertedTargets (injectChaosInSerialMode env ed pods rd cd script).1 ++ [p]) ∧
    (stringsContains msg "137" = true →
      (injectChaosInSerialMode env ed pods rd cd script).2 = Outcome.returned none) ∧
    (stringsContains msg "137" = false → ∃ target,
      (injectChaosInSerialMode env ed pods rd cd script).2 = Outcome.returned (some
        (GoError.Error ErrorType.ErrorTypeChaosInject target
          ("failed to stress memory of target pod: " ++ msg)))) := by
  rcases serialMode_cases env ed pods rd cd script with
    ⟨err, _, h⟩ | ⟨_, _, h⟩ | ⟨_, _, tr, htr, hrun⟩
  · rw [h] at hm; simp at hm
  · rw [h] at hm; simp at hm
  · rw [htr] at hm ⊢
    have hm' : Effect.recvStressErr (some msg) ∈ tr := by simpa using hm
    obtain ⟨⟨pre, hpre⟩, ⟨c, p, ns, h1, h2⟩, h3, h4⟩ := serialRun_stressErr hrun msg hm'
    exact ⟨⟨(duringChaosProbes env rd).1 ++ pre, by rw [hpre]; simp⟩,
      ⟨c, p, ns, by simp [h1], by simp [h2]⟩, h3, h4⟩

/-- Parallel mode as a whole, a stress error is received. -/
theorem parallelMode_stressErr (env : Env) (ed : ExperimentDetails) (pods : List Pod)
    (rd : ResultDetails) (cd : ChaosDetails) (script : List SelectCase) (msg : String)
    (hm : Effect.recvStressErr (some msg) ∈
      (injectChaosInParallelMode env ed pods rd cd script).1) :
    (∃ pre, (injectChaosInParallelMode env ed pods rd cd script).1 =
      pre ++ [Effect.recvStressErr (some msg)]) ∧
    killExecs (injectChaosInParallelMode env ed pods rd cd script).1 = [] ∧
    revertedTargets (injectChaosInParallelMode env ed pods rd cd script).1 = [] ∧
    stressStarts (injectChaosInParallelMode env ed pods rd cd script).1 =
      pods.map (fun p => (containerFor ed p, p.Name, p.Namespace)) ∧
    (stringsContains msg "137" = true →
      (injectChaosInParallelMode env ed pods rd cd script).2 = Outcome.returned none) ∧
    (stringsContains msg "137" = false →
      (injectChaosInParallelMode env ed pods rd cd script).2 =
        Outcome.returned (some (parallelInjectError msg))) := by
  obtain ⟨hk, _, hr, hq, _, _⟩ := parallelInjectLoop_obs pods ed
  rcases parallelMode_cases env ed pods rd cd script with
    ⟨err, _, h⟩ | ⟨_, _, h⟩ | ⟨_, _, _, h⟩ | ⟨_, _, ed1, tr, hl, htr, hrun⟩
  · rw [h] at hm; simp at hm
  · rw [h] at hm; simp at hm
  · rw [h] at hm; simp [hq] at hm
  · rw [htr] at hm ⊢
    have hm' : Effect.recvStressErr (some msg) ∈ tr := by simpa using hm
    obtain ⟨⟨pre, hpre⟩, h1, h2, h3, h4, h5⟩ := parallelRun_stressErr hrun hq hk hr msg hm'
    exact ⟨⟨(duringChaosProbes env rd).1 ++ pre, by rw [hpre]; simp⟩, by simp [h1], by simp [h2],
      by simp [h3, (parallelInjectLoop_some pods ed ed1 hl).1], h4, h5⟩

/-! ## The run ends by the timer -/

theorem revertedTargets_individualReverts_ok (env : Env) (c cmd : String) (pods : List Pod) :
    ∀ n : Nat, (∀ call ∈ individualReverts env n c pods cmd, call.2 = none) →
      revertedTargets ((individualReverts env n c pods cmd).map Prod.fst).flatten =
        pods.map (fun p => p.Name) := by
  induction pods with
  | nil => intro n _; simp [individualReverts]
  | cons pod pods ih =>
    intro n h
    have h0 : (killStressMemorySerial env n c pod.Name pod.Namespace cmd).2 = none :=
      h _ (by simp [individualReverts, List.enumFrom_cons])
    have ih' := ih (n + 1) (fun call hc => h call (by
      simp only [individualReverts, List.enumFrom_cons, List.map_cons, List.mem_cons]
      exact Or.inr hc))
    simp only [individualReverts, List.map_map] at ih'
    simp [individualReverts, List.enumFrom_cons, revertedTargets_killSerial_ok _ _ _ _ _ _ h0, ih']

theorem killParallel_none_reverted (env : Env) (n : Nat) (c : String) (pods : List Pod)
    (cmd : String) (h : (killStressMemoryParallel env n c pods cmd).2 = none) :
    revertedTargets (killStressMemoryParallel env n c pods cmd).1 = pods.map (fun p => p.Name) := by
  rw [killParallel_fst]
  apply revertedTargets_individualReverts_ok
  rw [killParallel_snd] at h
  by_cases hall : (individualReverts env n c pods cmd).all (fun call => call.2.isNone) = true
  · intro call hc
    have := (List.all_eq_true.1 hall) call hc
    simpa [Option.isNone_iff_eq_none] using this
  · simp [hall] at h

/-- Parallel mode, nil is returned and no stress error was received: every pod of the
list was started, killed and marked reverted. -/
theorem parallelRun_complete {env : Env} {cd : ChaosDetails} {ed1 : ExperimentDetails}
    {pods : List Pod} {itr tr : List Effect} {o : Outcome}
    (h : ParallelRun env cd ed1 pods itr tr o)
    (hk : killExecs itr = []) (hr : revertedTargets itr = [])
    (hs : (stressStarts itr).map Prod.snd = pods.map (fun p => (p.Name, p.Namespace)))
    (ho : o = Outcome.returned none) (hq : ∀ msg, Effect.recvStressErr (some msg) ∉ tr) :
    allStartedReverted tr := by
  cases h with
  | oom k msg1 hmsg => exact absurd (by simp) (hq msg1)
  | stressFailed k msg1 hmsg => cases ho
  | aborted k => cases ho
  | timeUp k =>
    have hnone : (killStressMemoryParallel env 0 ed1.TargetContainer pods ed1.ChaosKillCmd).2 =
        none := by
      injection ho
    have hnames : (stressStarts itr).map (fun x => x.2.1) = pods.map (fun p => p.Name) := by
      have := congrArg (List.map Prod.fst) hs
      simpa [List.map_map, Function.comp_def] using this
    unfold allStartedReverted
    simp [hk, hr, hs, hnames, killParallel_none_reverted _ _ _ _ _ hnone, List.map_map,
      Function.comp_def]

/-- Serial mode: the targets marked injected are those of the stress commands started. -/
theorem serialRun_injected {env : Env} {cd : ChaosDetails} {ed : ExperimentDetails} {n : Nat}
    {pods : List Pod} {tr : List Effect} {o : Outcome} (h : SerialRun env cd ed n pods tr o) :
    injectedTargets tr = (stressStarts tr).map (fun x => x.2.1) := by
  induction h with
  | done ed n => simp
  | panic ed n pod pods hres => simp
  | oom ed ed1 n pod pods k msg1 hres hmsg => simp
  | stressFailed ed ed1 n pod pods k msg1 hres hmsg => simp
  | aborted ed ed1 n pod pods k hres => simp
  | revertFailed ed ed1 n pod pods k err hres hkill => simp
  | next ed ed1 n pod pods k rtr o hres hkill hrest ih => simp [ih]

/-- Serial mode as a whole, nil is returned and no stress error was received. -/
theorem serialMode_complete (env : Env) (ed : ExperimentDetails) (pods : List Pod)
    (rd : ResultDetails) (cd : ChaosDetails) (script : List SelectCase)
    (ho : (injectChaosInSerialMode env ed pods rd cd script).2 = Outcome.returned none)
    (hq : ∀ msg, Effect.recvStressErr (some msg) ∉
      (injectChaosInSerialMode env ed pods rd cd script).1) :
    allStartedReverted (injectChaosInSerialMode env ed pods rd cd script).1 := by
  rcases serialMode_cases env ed pods rd cd script with
    ⟨err, _, h⟩ | ⟨_, _, h⟩ | ⟨_, _, tr, htr, hrun⟩
  · rw [h] at ho; cases ho
  · rw [h] at ho; cases ho
  · rw [htr] at hq ⊢
    have hq' : ∀ msg, Effect.recvStressErr (some msg) ∉ tr := by
      intro msg hmem
      exact hq msg (by simp [hmem])
    obtain ⟨h1, h2, h3⟩ := serialRun_complete hrun ho hq'
    unfold allStartedReverted
    have hinj := serialRun_injected hrun
    simp [h1, h2, hinj]

/-- Parallel mode as a whole, nil is returned and no stress error was received. -/
theorem parallelMode_complete (env : Env) (ed : ExperimentDetails) (pods : List Pod)
    (rd : ResultDetails) (cd : ChaosDetails) (script : List SelectCase)
    (ho : (injectChaosInParallelMode env ed pods rd cd script).2 = Outcome.returned none)
    (hq : ∀ msg, Effect.recvStressErr (some msg) ∉
      (injectChaosInParallelMode env ed pods rd cd script).1) :
    allStartedReverted (injectChaosInParallelMode env ed pods rd cd script).1 := by
  obtain ⟨hk, _, hr, _, _, _⟩ := parallelInjectLoop_obs pods ed
  rcases parallelMode_cases env ed pods rd cd script with
    ⟨err, _, h⟩ | ⟨_, _, h⟩ | ⟨_, _, _, h⟩ | ⟨_, _, ed1, tr, hl, htr, hrun⟩
  · rw [h] at ho; cases ho
  · rw [h] at ho; cases ho
  · rw [h] at ho; cases ho
  · rw [htr] at hq ⊢
    have hq' : ∀ msg, Effect.recvStressErr (some msg) ∉ tr := by
      intro msg hmem
      exact hq msg (by simp [hmem])
    have hs : (stressStarts (parallelInjectLoop ed pods).1).map Prod.snd =
        pods.map (fun p => (p.Name, p.Namespace)) := by
      rw [(parallelInjectLoop_some pods ed ed1 hl).1]
      simp [List.map_map, Function.comp_def]
    have := parallelRun_complete hrun hk hr hs ho hq'
    unfold allStartedReverted at this ⊢
    simpa using this

theorem mem_stressErrors (tr : List Effect) (msg : String) :
    msg ∈ stressErrors tr ↔ Effect.recvStressErr (some msg) ∈ tr := by
  unfold stressErrors
  rw [List.mem_filterMap]
  constructor
  · rintro ⟨e, he, h⟩
    cases e with
    | recvStressErr err =>
      cases err with
      | none => simp at h
      | some m => simp at h; subst h; exact he
    | _ => simp at h
  · intro h
    exact ⟨_, h, rfl⟩

theorem not_mem_of_stressErrors_nil {tr : List Effect} (h : stressErrors tr = []) (msg : String) :
    Effect.recvStressErr (some msg) ∉ tr := by
  intro hm
  have := (mem_stressErrors tr msg).2 hm
  rw [h] at this
  simp at this

theorem getLast?_of_eq_append {tr pre : List Effect} {e : Effect} (h : tr = pre ++ [e]) :
    tr.getLast? = some e := by
  rw [h]; simp

/-! ## C1 -/

/-- C1, as stated, fails: in serial mode with the one pod `app-0`, when the
supervision loop receives "command terminated with exit code 137" the call returns
nil although the stress command was started on `app-0` and the pod marked
"injected": no kill command is executed and the pod is not marked "reverted". -/
theorem oom_kill_returns_without_revert :
    injectChaosInSerialMode sampleEnv sampleDetails [appPod0] noProbes sampleChaos
        [SelectCase.stressErr (some "command terminated with exit code 137")] =
      ([Effect.goStressMemory "500" "main" "app-0" "default",
        Effect.setTargets "app-0" "injected" "pod",
        Effect.recvStressErr (some "command terminated with exit code 137")],
       Outcome.returned none) ∧
    ¬ allStartedReverted
      (injectChaosInSerialMode sampleEnv sampleDetails [appPod0] noProbes sampleChaos
        [SelectCase.stressErr (some "command terminated with exit code 137")]).1 := by
  decide

/-- C1, amended: in both modes, when the call returns nil and the supervision loop
received no stress error (it ended by the timer), every target on which the stress
command was started has had the kill command executed on it and been marked
"reverted".  When the loop receives an error containing "137", the call returns nil
at once, this reception being its last effect: in serial mode the target under
supervision stays started and marked injected without kill and without the mark
"reverted" (the earlier targets have both), in parallel mode every pod was started
and no kill command is executed and no target marked reverted. -/
theorem revert_on_timer_not_on_oom_kill (env : Env) (ed : ExperimentDetails) (pods : List Pod)
    (rd : ResultDetails) (cd : ChaosDetails) (script : List SelectCase) :
    ((injectChaosInSerialMode env ed pods rd cd script).2 = Outcome.returned none →
      stressErrors (injectChaosInSerialMode env ed pods rd cd script).1 = [] →
      allStartedReverted (injectChaosInSerialMode env ed pods rd cd script).1) ∧
    ((injectChaosInParallelMode env ed pods rd cd script).2 = Outcome.returned none →
      stressErrors (injectChaosInParallelMode env ed pods rd cd script).1 = [] →
      allStartedReverted (injectChaosInParallelMode env ed pods rd cd script).1) ∧
    (∀ msg, stringsContains msg "137" = true →
      Effect.recvStressErr (some msg) ∈ (injectChaosInSerialMode env ed pods rd cd script).1 →
      (injectChaosInSerialMode env ed pods rd cd script).2 = Outcome.returned none ∧
      (injectChaosInSerialMode env ed pods rd cd script).1.getLast? =
        some (Effect.recvStressErr (some msg)) ∧
      ∃ c p ns,
        stressStarts (injectChaosInSerialMode env ed pods rd cd script).1 =
          killExecs (injectChaosInSerialMode env ed pods rd cd script).1 ++ [(c, p, ns)] ∧
        injectedTargets (injectChaosInSerialMode env ed pods rd cd script).1 =
          revertedTargets (injectChaosInSerialMode env ed pods rd cd script).1 ++ [p]) ∧
    (∀ msg, stringsContains msg "137" = true →
      Effect.recvStressErr (some msg) ∈ (injectChaosInParallelMode env ed pods rd cd script).1 →
      (injectChaosInParallelMode env ed pods rd cd script).2 = Outcome.returned none ∧
      (injectChaosInParallelMode env ed pods rd cd script).1.getLast? =
        some (Effect.recvStressErr (some msg)) ∧
      stressStarts (injectChaosInParallelMode env ed pods rd cd script).1 =
        pods.map (fun p => (containerFor ed p, p.Name, p.Namespace)) ∧
      killExecs (injectChaosInParallelMode env ed pods rd cd script).1 = [] ∧
      revertedTargets (injectChaosInParallelMode env ed pods rd cd script).1 = []) := by
  refine ⟨fun ho hq => serialMode_complete env ed pods rd cd script ho
      (not_mem_of_stressErrors_nil hq),
    fun ho hq => parallelMode_complete env ed pods rd cd script ho
      (not_mem_of_stressErrors_nil hq), ?_, ?_⟩
  · intro msg h137 hm
    obtain ⟨⟨pre, hpre⟩, hx, h3, _⟩ := serialMode_stressErr env ed pods rd cd script msg hm
    exact ⟨h3 h137, getLast?_of_eq_append hpre, hx⟩
  · intro msg h137 hm
    obtain ⟨⟨pre, hpre⟩, hk, hr, hs, h3, _⟩ :=
      parallelMode_stressErr env ed pods rd cd script msg hm
    exact ⟨h3 h137, getLast?_of_eq_append hpre, hs, hk, hr⟩

/-- C1 (amended) on two pods: a run ended by the timer in each mode, and an OOM kill in parallel mode. -/
theorem revert_on_timer_not_on_oom_kill_witness :
    allStartedReverted
      (injectChaosInSerialMode sampleEnv sampleDetails [appPod0, appPod1] noProbes sampleChaos
        [SelectCase.stressErr none]).1 ∧
    allStartedReverted
      (injectChaosInParallelMode sampleEnv sampleDetails [appPod0, appPod1] noProbes sampleChaos
        [SelectCase.stressErr none]).1 ∧
    killExecs (injectChaosInParallelMode sampleEnv sampleDetails [appPod0, appPod1] noProbes
      sampleChaos [SelectCase.stressErr (some "exit code 137")]).1 = [] :=
  ⟨(revert_on_timer_not_on_oom_kill sampleEnv sampleDetails [appPod0, appPod1] noProbes
      sampleChaos [SelectCase.stressErr none]).1 (by decide) (by decide),
   (revert_on_timer_not_on_oom_kill sampleEnv sampleDetails [appPod0, appPod1] noProbes
      sampleChaos [SelectCase.stressErr none]).2.1 (by decide) (by decide),
   ((revert_on_timer_not_on_oom_kill sampleEnv sampleDetails [appPod0, appPod1] noProbes
      sampleChaos [SelectCase.stressErr (some "exit code 137")]).2.2.2 "exit code 137"
      (by decide) (by decide)).2.2.2.1⟩

/-! ## C2 -/

/-- C2, as stated, fails: in serial mode with the one pod `app-0`, when the
supervision loop receives the error "connection refused" the call returns the
injection error although `app-0` is started and marked "injected": no kill command
is executed, the pod is not marked "reverted", and the error is not a revert error. -/
theorem stress_error_returns_without_revert :
    injectChaosInSerialMode sampleEnv sampleDetails [appPod0] noProbes sampleChaos
        [SelectCase.stressErr (some "connection refused")] =
      ([Effect.goStressMemory "500" "main" "app-0" "default",
        Effect.setTargets "app-0" "injected" "pod",
        Effect.recvStressErr (some "connection refused")],
       Outcome.returned (some (GoError.Error ErrorType.ErrorTypeChaosInject
        "podName: app-0, namespace: default, container: main"
        "failed to stress memory of target pod: connection refused"))) ∧
    ¬ allStartedReverted
      (injectChaosInSerialMode sampleEnv sampleDetails [appPod0] noProbes sampleChaos
        [SelectCase.stressErr (some "connection refused")]).1 := by
  decide

/-- C2, amended: in both modes, when the supervision loop receives a stress error
whose text does not contain "137", the call returns at once an error with code
`ErrorTypeChaosInject` and reason "failed to stress memory of target pod: " followed
by the text, this reception being its last effect: no kill command is executed after
it.  In serial mode the target under supervision stays started and marked injected
without kill and without the mark "reverted" (the earlier targets have both); in
parallel mode every pod was started and no kill command is executed and no target
marked reverted. -/
theorem stress_error_returns_inject_error (env : Env) (ed : ExperimentDetails)
    (pods : List Pod) (rd : ResultDetails) (cd : ChaosDetails) (script : List SelectCase)
    (msg : String) (hmsg : stringsContains msg "137" = false) :
    (Effect.recvStressErr (some msg) ∈ (injectChaosInSerialMode env ed pods rd cd script).1 →
      (∃ target, (injectChaosInSerialMode env ed pods rd cd script).2 =
        Outcome.returned (some (GoError.Error ErrorType.ErrorTypeChaosInject target
          ("failed to stress memory of target pod: " ++ msg)))) ∧
      (injectChaosInSerialMode env ed pods rd cd script).1.getLast? =
        some (Effect.recvStressErr (some msg)) ∧
      ∃ c p ns,
        stressStarts (injectChaosInSerialMode env ed pods rd cd script).1 =
          killExecs (injectChaosInSerialMode env ed pods rd cd script).1 ++ [(c, p, ns)] ∧
        injectedTargets (injectChaosInSerialMode env ed pods rd cd script).1 =
          revertedTargets (injectChaosInSerialMode env ed pods rd cd script).1 ++ [p]) ∧
    (Effect.recvStressErr (some msg) ∈ (injectChaosInParallelMode env ed pods rd cd script).1 →
      (injectChaosInParallelMode env ed pods rd cd script).2 =
        Outcome.returned (some (GoError.Error ErrorType.ErrorTypeChaosInject ""
          ("failed to stress memory of target pod: " ++ msg))) ∧
      (injectChaosInParallelMode env ed pods rd cd script).1.getLast? =
        some (Effect.recvStressErr (some msg)) ∧
      stressStarts (injectChaosInParallelMode env ed pods rd cd script).1 =
        pods.map (fun p => (containerFor ed p, p.Name, p.Namespace)) ∧
      killExecs (injectChaosInParallelMode env ed pods rd cd script).1 = [] ∧
      revertedTargets (injectChaosInParallelMode env ed pods rd cd script).1 = []) := by
  refine ⟨?_, ?_⟩
  · intro hm
    obtain ⟨⟨pre, hpre⟩, hx, _, h4⟩ := serialMode_stressErr env ed pods rd cd script msg hm
    exact ⟨h4 hmsg, getLast?_of_eq_append hpre, hx⟩
  · intro hm
    obtain ⟨⟨pre, hpre⟩, hk, hr, hs, _, h4⟩ :=
      parallelMode_stressErr env ed pods rd cd script msg hm
    exact ⟨h4 hmsg, getLast?_of_eq_append hpre, hs, hk, hr⟩

/-- C2 (amended) on two pods in parallel mode with the error "connection refused". -/
theorem stress_error_returns_inject_error_witness :
    killExecs (injectChaosInParallelMode sampleEnv sampleDetails [appPod0, appPod1] noProbes
      sampleChaos [SelectCase.stressErr (some "connection refused")]).1 = [] :=
  ((stress_error_returns_inject_error sampleEnv sampleDetails [appPod0, appPod1] noProbes
    sampleChaos [SelectCase.stressErr (some "connection refused")] "connection refused"
    (by decide)).2 (by decide)).2.2.2.1

/-! ## The abort signal is received -/

theorem serialMode_abort (env : Env) (ed : ExperimentDetails) (pods : List Pod)
    (rd : ResultDetails) (cd : ChaosDetails) (script : List SelectCase)
    (hm : Effect.recvSignChan ∈ (injectChaosInSerialMode env ed pods rd cd script).1) :
    (injectChaosInSerialMode env ed pods rd cd script).2 = Outcome.exited 1 ∧
      abortHandled (injectChaosInSerialMode env ed pods rd cd script).1 := by
  rcases serialMode_cases env ed pods rd cd script with
    ⟨err, _, h⟩ | ⟨_, _, h⟩ | ⟨_, _, tr, htr, hrun⟩
  · rw [h] at hm; simp at hm
  · rw [h] at hm; simp at hm
  · rw [htr] at hm ⊢
    have hm' : Effect.recvSignChan ∈ tr := by simpa using hm
    obtain ⟨ho, pre, kills, fs, ec, heq, hs, x, hk, hpre⟩ := serialRun_abort hrun hm'
    refine ⟨ho, (duringChaosProbes env rd).1 ++ pre, kills, fs, ec, by rw [heq]; simp, hs, ?_⟩
    simp [hk, hpre]

theorem parallelMode_abort (env : Env) (ed : ExperimentDetails) (pods : List Pod)
    (rd : ResultDetails) (cd : ChaosDetails) (script : List SelectCase)
    (hm : Effect.recvSignChan ∈ (injectChaosInParallelMode env ed pods rd cd script).1) :
    (injectChaosInParallelMode env ed pods rd cd script).2 = Outcome.exited 1 ∧
      abortHandled (injectChaosInParallelMode env ed pods rd cd script).1 ∧
      ∃ ed1, (parallelInjectLoop ed pods).2 = some ed1 ∧
        killExecs (injectChaosInParallelMode env ed pods rd cd script).1 =
          pods.map (fun p => (ed1.TargetContainer, p.Name, p.Namespace)) := by
  obtain ⟨hk, _, _, _, hq, _⟩ := parallelInjectLoop_obs pods ed
  rcases parallelMode_cases env ed pods rd cd script with
    ⟨err, _, h⟩ | ⟨_, _, h⟩ | ⟨_, _, _, h⟩ | ⟨_, _, ed1, tr, hl, htr, hrun⟩
  · rw [h] at hm; simp at hm
  · rw [h] at hm; simp at hm
  · rw [h] at hm; simp [hq] at hm
  · rw [htr] at hm ⊢
    have hs := (parallelInjectLoop_some pods ed ed1 hl).1
    generalize (injectChaosInParallelMode env ed pods rd cd script).2 = o at hrun ⊢
    cases hrun with
    | oom k msg hmsg => simp [hq] at hm
    | stressFailed k msg hmsg => simp [hq] at hm
    | timeUp k => simp [hq] at hm
    | aborted k =>
      refine ⟨rfl, ⟨(duringChaosProbes env rd).1 ++ (parallelInjectLoop ed pods).1 ++ quiet k,
        (killStressMemoryParallel env 0 ed1.TargetContainer pods ed1.ChaosKillCmd).1,
        (env.getRootCauseAndErrorCode parallelAbortError cd.Phase).1,
        (env.getRootCauseAndErrorCode parallelAbortError cd.Phase).2, ?_, by simp, ?_⟩,
        ed1, hl, by simp [hk]⟩
      · simp [stoppedEffects]
      · simp [hk, hs, List.map_map, Function.comp_def]

/-! ## C4 -/

/-- C4, as stated, fails at the pre-run check: with the abort signal waiting in
`inject`, serial mode sleeps 10 seconds and calls `os.Exit(0)`; the exit status is
zero and the result is neither set to "Stopped" nor persisted. -/
theorem abort_before_run_exits_zero :
    injectChaosInSerialMode abortedEnv sampleDetails [appPod0] noProbes sampleChaos [] =
      ([Effect.recvInject, Effect.sleep 10], Outcome.exited 0) := by
  decide

/-- C4, amended: observing the abort signal inside the supervision loop, in serial or
parallel mode, results in: no stress command started after the observation, a kill
command executed such that every target started has had one, the result set to
"Stopped" and the chaos result updated, and `os.Exit(1)`.  Observing it at the
pre-run check (after the probes, if any, passed) results, in both modes, in a sleep
of 10 seconds and `os.Exit(0)`: nothing was started, nothing is killed and no
result is set. -/
theorem abort_observed (env : Env) (ed : ExperimentDetails) (pods : List Pod)
    (rd : ResultDetails) (cd : ChaosDetails) (script : List SelectCase) :
    (Effect.recvSignChan ∈ (injectChaosInSerialMode env ed pods rd cd script).1 →
      (injectChaosInSerialMode env ed pods rd cd script).2 = Outcome.exited 1 ∧
        abortHandled (injectChaosInSerialMode env ed pods rd cd script).1) ∧
    (Effect.recvSignChan ∈ (injectChaosInParallelMode env ed pods rd cd script).1 →
      (injectChaosInParallelMode env ed pods rd cd script).2 = Outcome.exited 1 ∧
        abortHandled (injectChaosInParallelMode env ed pods rd cd script).1) ∧
    (env.injectPending = true → (duringChaosProbes env rd).2 = none →
      injectChaosInSerialMode env ed pods rd cd script =
        ((duringChaosProbes env rd).1 ++ [Effect.recvInject, Effect.sleep 10],
          Outcome.exited 0) ∧
      injectChaosInParallelMode env ed pods rd cd script =
        ((duringChaosProbes env rd).1 ++ [Effect.recvInject, Effect.sleep 10],
          Outcome.exited 0)) := by
  refine ⟨serialMode_abort env ed pods rd cd script,
    fun hm => ⟨(parallelMode_abort env ed pods rd cd script hm).1,
      (parallelMode_abort env ed pods rd cd script hm).2.1⟩, ?_⟩
  intro hi hp
  constructor
  · rcases serialMode_cases env ed pods rd cd script with
      ⟨err, he, _⟩ | ⟨_, _, h⟩ | ⟨_, hn, _⟩
    · rw [hp] at he; cases he
    · exact h
    · rw [hi] at hn; cases hn
  · rcases parallelMode_cases env ed pods rd cd script with
      ⟨err, he, _⟩ | ⟨_, _, h⟩ | ⟨_, hn, _⟩ | ⟨_, hn, _⟩
    · rw [hp] at he; cases he
    · exact h
    · rw [hi] at hn; cases hn
    · rw [hi] at hn; cases hn

/-- C4 (amended) on two pods: the abort signal during the supervision of the second pod in
serial mode, during the supervision in parallel mode, and before the run. -/
theorem abort_observed_witness :
    ((injectChaosInSerialMode sampleEnv sampleDetails [appPod0, appPod1] noProbes sampleChaos
        [SelectCase.endTime, SelectCase.signChan]).2 = Outcome.exited 1 ∧
      abortHandled (injectChaosInSerialMode sampleEnv sampleDetails [appPod0, appPod1] noProbes
        sampleChaos [SelectCase.endTime, SelectCase.signChan]).1) ∧
    ((injectChaosInParallelMode sampleEnv sampleDetails [appPod0, appPod1] noProbes sampleChaos
        [SelectCase.signChan]).2 = Outcome.exited 1 ∧
      abortHandled (injectChaosInParallelMode sampleEnv sampleDetails [appPod0, appPod1]
        noProbes sampleChaos [SelectCase.signChan]).1) ∧
    injectChaosInParallelMode abortedEnv sampleDetails [appPod0, appPod1] noProbes sampleChaos
      [] = ([Effect.recvInject, Effect.sleep 10], Outcome.exited 0) :=
  ⟨(abort_observed sampleEnv sampleDetails [appPod0, appPod1] noProbes sampleChaos
      [SelectCase.endTime, SelectCase.signChan]).1 (by decide),
   (abort_observed sampleEnv sampleDetails [appPod0, appPod1] noProbes sampleChaos
      [SelectCase.signChan]).2.1 (by decide),
   ((abort_observed abortedEnv sampleDetails [appPod0, appPod1] noProbes sampleChaos
      []).2.2 (by decide) (by decide)).2⟩

/-! ## C3 -/

/-- C3: in serial and in parallel mode, for every target list, when the supervision
loop receives from a stress command an error whose text contains "137", the call
returns nil: the OOM kill is never returned as an error. -/
theorem oom_kill_returns_nil (env : Env) (ed : ExperimentDetails) (pods : List Pod)
    (rd : ResultDetails) (cd : ChaosDetails) (script : List SelectCase) (msg : String)
    (h137 : stringsContains msg "137" = true) :
    (Effect.recvStressErr (some msg) ∈ (injectChaosInSerialMode env ed pods rd cd script).1 →
      (injectChaosInSerialMode env ed pods rd cd script).2 = Outcome.returned none) ∧
    (Effect.recvStressErr (some msg) ∈ (injectChaosInParallelMode env ed pods rd cd script).1 →
      (injectChaosInParallelMode env ed pods rd cd script).2 = Outcome.returned none) :=
  ⟨fun hm => (serialMode_stressErr env ed pods rd cd script msg hm).2.2.1 h137,
    fun hm => (parallelMode_stressErr env ed pods rd cd script msg hm).2.2.2.2.1 h137⟩

/-- C3 on two pods: the second pod in serial mode, and a pod in parallel mode, is OOM killed. -/
theorem oom_kill_returns_nil_witness :
    (injectChaosInSerialMode sampleEnv sampleDetails [appPod0, appPod1] noProbes sampleChaos
        [SelectCase.endTime, SelectCase.stressErr (some "command terminated with exit code 137")]).2
      = Outcome.returned none ∧
    (injectChaosInParallelMode sampleEnv sampleDetails [appPod0, appPod1] noProbes sampleChaos
        [SelectCase.stressErr none,
          SelectCase.stressErr (some "command terminated with exit code 137")]).2
      = Outcome.returned none :=
  ⟨(oom_kill_returns_nil sampleEnv sampleDetails [appPod0, appPod1] noProbes sampleChaos
      [SelectCase.endTime, SelectCase.stressErr (some "command terminated with exit code 137")]
      "command terminated with exit code 137" (by decide)).1 (by decide),
   (oom_kill_returns_nil sampleEnv sampleDetails [appPod0, appPod1] noProbes sampleChaos
      [SelectCase.stressErr none,
        SelectCase.stressErr (some "command terminated with exit code 137")]
      "command terminated with exit code 137" (by decide)).2 (by decide)⟩

/-! ## C7 -/

/-- C7, as stated, fails in its last part: in serial mode with pods `app-0`, `app-1`
and every kill command failing, when the abort signal arrives during the
supervision of `app-0` the kill on `app-0` fails, and the run does not return the
revert error: the process exits with status 1 (`app-1` is not started). -/
theorem failed_revert_on_abort_exits :
    (failingKillEnv.exec 0).failed = true ∧
    killExecs (injectChaosInSerialMode failingKillEnv sampleDetails [appPod0, appPod1] noProbes
      sampleChaos [SelectCase.signChan]).1 = [("main", "app-0", "default")] ∧
    stressStarts (injectChaosInSerialMode failingKillEnv sampleDetails [appPod0, appPod1]
      noProbes sampleChaos [SelectCase.signChan]).1 = [("main", "app-0", "default")] ∧
    (injectChaosInSerialMode failingKillEnv sampleDetails [appPod0, appPod1] noProbes
      sampleChaos [SelectCase.signChan]).2 = Outcome.exited 1 := by
  decide

/-- C7, amended: in serial mode the injection events (start of the stress command)
and revert events (execution of the kill command) of a run are an initial part of
"inject pod 0, revert pod 0, inject pod 1, revert pod 1, ..." in the order of the
list, so that pod N+1 is never injected before pod N is reverted, and the targets
marked "injected" are an initial part of the list.  If the `i`-th kill command
fails, it is the kill of pod `i` and pod `i+1` is never injected; the call then
returns the revert error of pod `i` propagated with "could not revert memory
stress" when the kill was made after the timer fired, and when it was made on abort
the process exits with status 1 instead. -/
theorem serial_inject_revert_in_order (env : Env) (ed : ExperimentDetails) (pods : List Pod)
    (rd : ResultDetails) (cd : ChaosDetails) (script : List SelectCase) :
    lifecycle (injectChaosInSerialMode env ed pods rd cd script).1 <+: serialOrder pods ∧
    injectedTargets (injectChaosInSerialMode env ed pods rd cd script).1 <+:
      pods.map (fun p => p.Name) ∧
    ∀ i, i < (killExecs (injectChaosInSerialMode env ed pods rd cd script).1).length →
      (env.exec i).failed = true →
      (stressStarts (injectChaosInSerialMode env ed pods rd cd script).1).length = i + 1 ∧
      ∃ pod c, pods[i]? = some pod ∧
        (killExecs (injectChaosInSerialMode env ed pods rd cd script).1)[i]? =
          some (c, pod.Name, pod.Namespace) ∧
        (Effect.recvSignChan ∈ (injectChaosInSerialMode env ed pods rd cd script).1 →
          (injectChaosInSerialMode env ed pods rd cd script).2 = Outcome.exited 1) ∧
        (Effect.recvSignChan ∉ (injectChaosInSerialMode env ed pods rd cd script).1 →
          (injectChaosInSerialMode env ed pods rd cd script).2 =
            Outcome.returned (some (GoError.Propagate
              (GoError.Error ErrorType.ErrorTypeChaosRevert
                ("\x7bpodName: " ++ pod.Name ++ ", namespace: " ++ pod.Namespace ++ "\x7d")
                ("failed to revert chaos: " ++ (env.exec i).out))
              "could not revert memory stress"))) := by
  rcases serialMode_cases env ed pods rd cd script with
    ⟨err, _, h⟩ | ⟨_, _, h⟩ | ⟨_, _, tr, htr, hrun⟩
  · rw [h]; simp
  · rw [h]; simp
  · rw [htr]
    obtain ⟨h1, h2⟩ := serialRun_lifecycle hrun
    refine ⟨by simpa using h1, by simpa using h2, ?_⟩
    intro i hi hf
    have hi' : i < (killExecs tr).length := by simpa using hi
    obtain ⟨h3, pod, c, hp, hk, h4, h5⟩ := serialRun_revertFailed hrun i hi' (by simpa using hf)
    refine ⟨by simpa using h3, pod, c, hp, by simpa using hk,
      fun hs => h4 (by simpa using hs), fun hs => ?_⟩
    rw [h5 (fun hmem => hs (by simp [hmem]))]
    simp

/-- C7 (amended) on two pods with failing kill commands: the kill of `app-0` after the timer
fails and its revert error is returned. -/
theorem serial_inject_revert_in_order_witness :
    (injectChaosInSerialMode failingKillEnv sampleDetails [appPod0, appPod1] noProbes
      sampleChaos []).2 =
        Outcome.returned (some (GoError.Propagate
          (GoError.Error ErrorType.ErrorTypeChaosRevert
            "\x7bpodName: app-0, namespace: default\x7d"
            "failed to revert chaos: sh: kill: not found")
          "could not revert memory stress")) := by
  obtain ⟨_, pod, c, hp, _, _, h⟩ :=
    (serial_inject_revert_in_order failingKillEnv sampleDetails [appPod0, appPod1] noProbes
      sampleChaos []).2.2 0 (by decide) (by decide)
  have hpod : pod = appPod0 := by
    have : some appPod0 = some pod := hp
    injection this with h'
    exact h'.symm
  subst hpod
  exact h (by decide)

/-! ## C8 -/

/-- C8: in parallel mode the trace of a run splits in two parts: the first contains
no kill command and the second starts no stress command, and if the second contains
a kill command then the first has started the stress command of every pod of the
list, in list order, and the second kills every pod of the list.  So every
injection event precedes every revert event, on every path (timer or abort). -/
theorem parallel_injects_all_before_reverts (env : Env) (ed : ExperimentDetails)
    (pods : List Pod) (rd : ResultDetails) (cd : ChaosDetails) (script : List SelectCase) :
    ∃ a b, (injectChaosInParallelMode env ed pods rd cd script).1 = a ++ b ∧
      killExecs a = [] ∧ stressStarts b = [] ∧
      (killExecs b = [] ∨
        ((stressStarts a).map Prod.snd = pods.map (fun p => (p.Name, p.Namespace)) ∧
          (killExecs b).map Prod.snd = pods.map (fun p => (p.Name, p.Namespace)))) := by
  obtain ⟨hk, _, _, _, _, _⟩ := parallelInjectLoop_obs pods ed
  rcases parallelMode_cases env ed pods rd cd script with
    ⟨err, _, h⟩ | ⟨_, _, h⟩ | ⟨_, _, _, h⟩ | ⟨_, _, ed1, tr, hl, htr, hrun⟩
  · exact ⟨(injectChaosInParallelMode env ed pods rd cd script).1, [], by simp,
      by rw [h]; simp, rfl, Or.inl rfl⟩
  · exact ⟨(injectChaosInParallelMode env ed pods rd cd script).1, [], by simp,
      by rw [h]; simp, rfl, Or.inl rfl⟩
  · exact ⟨(injectChaosInParallelMode env ed pods rd cd script).1, [], by simp,
      by rw [h]; simp [hk], rfl, Or.inl rfl⟩
  · have hs := (parallelInjectLoop_some pods ed ed1 hl).1
    rw [htr]
    generalize (injectChaosInParallelMode env ed pods rd cd script).2 = o at hrun
    cases hrun with
    | oom k msg hmsg =>
      exact ⟨(duringChaosProbes env rd).1 ++ ((parallelInjectLoop ed pods).1 ++ quiet k ++
        [Effect.recvStressErr (some msg)]), [], by simp, by simp [hk], rfl, Or.inl rfl⟩
    | stressFailed k msg hmsg =>
      exact ⟨(duringChaosProbes env rd).1 ++ ((parallelInjectLoop ed pods).1 ++ quiet k ++
        [Effect.recvStressErr (some msg)]), [], by simp, by simp [hk], rfl, Or.inl rfl⟩
    | aborted k =>
      refine ⟨(duringChaosProbes env rd).1 ++ (parallelInjectLoop ed pods).1 ++ quiet k ++
          [Effect.recvSignChan],
        (killStressMemoryParallel env 0 ed1.TargetContainer pods ed1.ChaosKillCmd).1 ++
          stoppedEffects env cd parallelAbortError,
        by simp, by simp [hk], by simp, Or.inr ⟨?_, ?_⟩⟩
      · simp [hs, List.map_map, Function.comp_def]
      · simp [List.map_map, Function.comp_def]
    | timeUp k =>
      refine ⟨(duringChaosProbes env rd).1 ++ (parallelInjectLoop ed pods).1 ++ quiet k ++
          [Effect.recvEndTime],
        (killStressMemoryParallel env 0 ed1.TargetContainer pods ed1.ChaosKillCmd).1,
        by simp, by simp [hk], by simp, Or.inr ⟨?_, ?_⟩⟩
      · simp [hs, List.map_map, Function.comp_def]
      · simp [List.map_map, Function.comp_def]

/-! ## C9 -/

/-- Parallel mode never calls `SetTargets(pod.Name, "injected", "pod")`. -/
theorem parallel_marks_no_target_injected (env : Env) (ed : ExperimentDetails)
    (pods : List Pod) (rd : ResultDetails) (cd : ChaosDetails) (script : List SelectCase) :
    injectedTargets (injectChaosInParallelMode env ed pods rd cd script).1 = [] := by
  obtain ⟨_, hi, _, _, _, _⟩ := parallelInjectLoop_obs pods ed
  rcases parallelMode_cases env ed pods rd cd script with
    ⟨err, _, h⟩ | ⟨_, _, h⟩ | ⟨_, _, _, h⟩ | ⟨_, _, ed1, tr, hl, htr, hrun⟩
  · rw [h]; simp
  · rw [h]; simp
  · rw [h]; simp [hi]
  · rw [htr]
    generalize (injectChaosInParallelMode env ed pods rd cd script).2 = o at hrun
    cases hrun <;> simp [hi]

/-- C9, the code at the failing input: with the one pod `app-0` and no event before
the timer, parallel mode starts the stress command on `app-0`, lets the timer fire
and reverts the pod, and never marks it "injected", whereas serial mode on the same
input does. -/
theorem parallel_mode_misses_injected_mark :
    injectChaosInParallelMode sampleEnv sampleDetails [appPod0] noProbes sampleChaos [] =
      ([Effect.goStressMemory "500" "main" "app-0" "default",
        Effect.recvEndTime,
        Effect.execKill "main" "app-0" "default" ["/bin/sh", "-c", "kill -9 $(pidof dd)"],
        Effect.setTargets "app-0" "reverted" "pod"],
       Outcome.returned none) ∧
    injectedTargets (injectChaosInParallelMode sampleEnv sampleDetails [appPod0] noProbes
      sampleChaos []).1 = [] ∧
    injectedTargets (injectChaosInSerialMode sampleEnv sampleDetails [appPod0] noProbes
      sampleChaos []).1 = ["app-0"] := by
  decide

/-! ## C10 -/

theorem recvEndTime_not_mem_quiet (k : Nat) : Effect.recvEndTime ∉ quiet k := by
  intro h
  have := mem_quiet h
  simp at this

theorem recvEndTime_not_mem_probes (env : Env) (rd : ResultDetails) :
    Effect.recvEndTime ∉ (duringChaosProbes env rd).1 := by
  rcases duringChaosProbes_fst env rd with h | h <;> simp [h]

theorem recvEndTime_not_mem_parallelInjectLoop (pods : List Pod) : ∀ ed : ExperimentDetails,
    Effect.recvEndTime ∉ (parallelInjectLoop ed pods).1 := by
  induction pods with
  | nil => intro ed; simp [parallelInjectLoop]
  | cons pod pods ih =>
    intro ed
    unfold parallelInjectLoop
    cases hres : resolveTargetContainer ed pod with
    | none => simp only; unfold injectEvent; split <;> simp
    | some ed1 =>
      have := ih ed1
      simp only [List.mem_append, List.mem_cons, not_or]
      refine ⟨?_, by simp [goStress], this⟩
      unfold injectEvent; split <;> simp

/-- Parallel mode without a provided container, every pod having a container: the
injection loop ends without panic and leaves in `TargetContainer` the name of the
first container of the last pod. -/
theorem parallelInjectLoop_last (ed : ExperimentDetails) (pods : List Pod)
    (hprov : ed.IsTargetContainerProvided = false) (hne : pods ≠ [])
    (hc : ∀ p ∈ pods, p.Containers ≠ []) :
    ∃ ed1, (parallelInjectLoop ed pods).2 = some ed1 ∧
      ed1.TargetContainer = firstContainerName (pods.getLast hne) := by
  obtain ⟨ed1, h1⟩ := parallelInjectLoop_total pods ed (Or.inr hc)
  refine ⟨ed1, h1, ?_⟩
  rw [(parallelInjectLoop_some pods ed ed1 h1).2]
  simp [List.getLast?_eq_getLast _ hne, containerFor, hprov]

/-- C10: in parallel mode, when no container was provided (`IsTargetContainerProvided`
is false), for every non-empty pod list whose pods all have a container: the stress
commands started are, in list order, on the pods of the list, each in the first
container of its own pod; the kill commands of the run, when it issues any, and it
does on the timer path and on the abort path, are on every pod of the list, each in
the first container of the LAST pod of the list.  Hence at each position the kill
runs in the container of the stress command exactly when the first container of
that pod has the name of the first container of the last pod. -/
theorem parallel_kill_uses_last_pods_container (env : Env) (ed : ExperimentDetails)
    (pods : List Pod) (rd : ResultDetails) (cd : ChaosDetails) (script : List SelectCase)
    (hprov : ed.IsTargetContainerProvided = false) (hne : pods ≠ [])
    (hc : ∀ p ∈ pods, p.Containers ≠ []) :
    stressStarts (injectChaosInParallelMode env ed pods rd cd script).1 <+:
      pods.map (fun p => (firstContainerName p, p.Name, p.Namespace)) ∧
    (killExecs (injectChaosInParallelMode env ed pods rd cd script).1 = [] ∨
      (stressStarts (injectChaosInParallelMode env ed pods rd cd script).1 =
          pods.map (fun p => (firstContainerName p, p.Name, p.Namespace)) ∧
        killExecs (injectChaosInParallelMode env ed pods rd cd script).1 =
          pods.map (fun p => (firstContainerName (pods.getLast hne), p.Name, p.Namespace)))) ∧
    (Effect.recvEndTime ∈ (injectChaosInParallelMode env ed pods rd cd script).1 ∨
        Effect.recvSignChan ∈ (injectChaosInParallelMode env ed pods rd cd script).1 →
      killExecs (injectChaosInParallelMode env ed pods rd cd script).1 =
        pods.map (fun p => (firstContainerName (pods.getLast hne), p.Name, p.Namespace))) ∧
    (∀ (i : Nat) (p : Pod) (k s : String × String × String), pods[i]? = some p →
      (killExecs (injectChaosInParallelMode env ed pods rd cd script).1)[i]? = some k →
      (stressStarts (injectChaosInParallelMode env ed pods rd cd script).1)[i]? = some s →
      (k.1 = s.1 ↔ firstContainerName p = firstContainerName (pods.getLast hne))) := by
  have hcf : ∀ p, containerFor ed p = firstContainerName p := by
    intro p; simp [containerFor, hprov]
  obtain ⟨hk, _, _, hq, hsig, hpre⟩ := parallelInjectLoop_obs pods ed
  simp only [hcf] at hpre
  obtain ⟨ed1, hl, hlast⟩ := parallelInjectLoop_last ed pods hprov hne hc
  have hs := (parallelInjectLoop_some pods ed ed1 hl).1
  simp only [hcf] at hs
  have hend := recvEndTime_not_mem_parallelInjectLoop pods ed
  have hendp := recvEndTime_not_mem_probes env rd
  have main :
      (stressStarts (injectChaosInParallelMode env ed pods rd cd script).1 <+:
        pods.map (fun p => (firstContainerName p, p.Name, p.Namespace)) ∧
      killExecs (injectChaosInParallelMode env ed pods rd cd script).1 = [] ∧
      Effect.recvEndTime ∉ (injectChaosInParallelMode env ed pods rd cd script).1 ∧
      Effect.recvSignChan ∉ (injectChaosInParallelMode env ed pods rd cd script).1) ∨
      (stressStarts (injectChaosInParallelMode env ed pods rd cd script).1 =
          pods.map (fun p => (firstContainerName p, p.Name, p.Namespace)) ∧
        killExecs (injectChaosInParallelMode env ed pods rd cd script).1 =
          pods.map (fun p => (firstContainerName (pods.getLast hne), p.Name, p.Namespace))) := by
    rcases parallelMode_cases env ed pods rd cd script with
      ⟨err, _, h⟩ | ⟨_, _, h⟩ | ⟨_, _, hnone, _⟩ | ⟨_, _, ed2, tr, hl2, htr, hrun⟩
    · exact Or.inl (by rw [h]; simp [hendp])
    · exact Or.inl (by rw [h]; simp [hendp])
    · rw [hl] at hnone; cases hnone
    · have he : ed2 = ed1 := by rw [hl] at hl2; injection hl2 with h'; exact h'.symm
      subst he
      rw [htr]
      generalize (injectChaosInParallelMode env ed pods rd cd script).2 = o at hrun
      cases hrun with
      | oom k msg hmsg =>
        exact Or.inl (by simp [hk, hs, hend, hendp, hsig, recvEndTime_not_mem_quiet])
      | stressFailed k msg hmsg =>
        exact Or.inl (by simp [hk, hs, hend, hendp, hsig, recvEndTime_not_mem_quiet])
      | aborted k => exact Or.inr (by simp [hk, hs, hlast])
      | timeUp k => exact Or.inr (by simp [hk, hs, hlast])
  refine ⟨?_, ?_, ?_, ?_⟩
  · rcases main with h | h
    · exact h.1
    · rw [h.1]
  · rcases main with h | h
    · exact Or.inl h.2.1
    · exact Or.inr h
  · intro hm
    rcases main with h | h
    · rcases hm with hm | hm
      · exact absurd hm h.2.2.1
      · exact absurd hm h.2.2.2
    · exact h.2
  · intro i p k s hp hki hsi
    rcases main with h | h
    · rw [h.2.1] at hki; simp at hki
    · simp only [h.2, List.getElem?_map, hp, Option.map_some', Option.some.injEq] at hki
      simp only [h.1, List.getElem?_map, hp, Option.map_some', Option.some.injEq] at hsi
      subst hki hsi
      exact eq_comm

/-- C10 on the pods `app-0` (first container "main") and `app-1` (first container "sidecar"):
both kill commands run in "sidecar". -/
theorem parallel_kill_uses_last_pods_container_witness :
    killExecs (injectChaosInParallelMode sampleEnv sampleDetails [appPod0, appPod1] noProbes
      sampleChaos []).1 = [("sidecar", "app-0", "default"), ("sidecar", "app-1", "default")] ∧
    stressStarts (injectChaosInParallelMode sampleEnv sampleDetails [appPod0, appPod1] noProbes
      sampleChaos []).1 <+: [("main", "app-0", "default"), ("sidecar", "app-1", "default")] :=
  ⟨(parallel_kill_uses_last_pods_container sampleEnv sampleDetails [appPod0, appPod1] noProbes
      sampleChaos [] (by decide) (by decide) (by decide)).2.2.1 (Or.inl (by decide)),
   (parallel_kill_uses_last_pods_container sampleEnv sampleDetails [appPod0, appPod1] noProbes
      sampleChaos [] (by decide) (by decide) (by decide)).1⟩

/-! ## C6 -/

theorem serialMode_containers (env : Env) (ed : ExperimentDetails) (pods : List Pod)
    (rd : ResultDetails) (cd : ChaosDetails) (script : List SelectCase) :
    stressStarts (injectChaosInSerialMode env ed pods rd cd script).1 <+:
      pods.map (fun p => (containerFor ed p, p.Name, p.Namespace)) := by
  rcases serialMode_cases env ed pods rd cd script with
    ⟨err, _, h⟩ | ⟨_, _, h⟩ | ⟨_, _, tr, htr, hrun⟩
  · rw [h]; simp
  · rw [h]; simp
  · rw [htr]; simpa using serialRun_containers hrun

theorem parallelMode_containers (env : Env) (ed : ExperimentDetails) (pods : List Pod)
    (rd : ResultDetails) (cd : ChaosDetails) (script : List SelectCase) :
    stressStarts (injectChaosInParallelMode env ed pods rd cd script).1 <+:
      pods.map (fun p => (containerFor ed p, p.Name, p.Namespace)) := by
  obtain ⟨_, _, _, _, _, hpre⟩ := parallelInjectLoop_obs pods ed
  rcases parallelMode_cases env ed pods rd cd script with
    ⟨err, _, h⟩ | ⟨_, _, h⟩ | ⟨_, _, _, h⟩ | ⟨_, _, ed1, tr, hl, htr, hrun⟩
  · rw [h]; simp
  · rw [h]; simp
  · rw [h]; simpa using hpre
  · rw [htr]
    generalize (injectChaosInParallelMode env ed pods rd cd script).2 = o at hrun
    cases hrun <;> simpa using hpre

/-- C6, as stated, fails: with no target container configured and the pods `app-0`
(first container "main") and `app-1` (first container "sidecar"), the stress command
of `app-1` is started in "sidecar", in serial and in parallel mode, and not in
"main", the first container of the first pod. -/
theorem stress_container_not_reused :
    firstContainerName appPod0 = "main" ∧
    stressStarts (experimentMemory (podListEnv [appPod0, appPod1]) sampleDetails noProbes
      sampleChaos []).1 = [("main", "app-0", "default"), ("sidecar", "app-1", "default")] ∧
    stressStarts (experimentMemory (podListEnv [appPod0, appPod1])
      { sampleDetails with Sequence := "parallel" } noProbes sampleChaos []).1 =
        [("main", "app-0", "default"), ("sidecar", "app-1", "default")] := by
  decide

/-- C6, amended: when `experimentMemory` runs serial or parallel mode on the pod list,
the stress commands started are, in list order, on an initial part of the list, and
when no target container is configured (`TargetContainer` is empty on entry) each
is started in the first container of its own pod: the name is resolved again for
every target.  Only a configured container is used for every target. -/
theorem stress_container_resolved_per_target (env : Env) (ed : ExperimentDetails)
    (rd : ResultDetails) (cd : ChaosDetails) (script : List SelectCase) (pods : List Pod)
    (hsel : (ed.TargetPods == "" && cd.AppDetailIsNil) = false)
    (hlist : env.getPodList = Except.ok pods)
    (hmode : env.toLower ed.Sequence = "serial" ∨ env.toLower ed.Sequence = "parallel") :
    stressStarts (experimentMemory env ed rd cd script).1 <+:
      pods.map (fun p =>
        (if ed.TargetContainer = "" then firstContainerName p else ed.TargetContainer,
          p.Name, p.Namespace)) := by
  have hcf : ∀ p, containerFor
      { ed with IsTargetContainerProvided := ed.TargetContainer != "" } p =
      if ed.TargetContainer = "" then firstContainerName p else ed.TargetContainer := by
    intro p
    by_cases h : ed.TargetContainer = "" <;> simp [containerFor, h]
  unfold experimentMemory
  simp only [hsel, hlist, Bool.false_eq_true, ↓reduceIte]
  by_cases hser : env.toLower ed.Sequence = "serial"
  · simp only [hser, ↓reduceIte]
    have := serialMode_containers env
      { ed with IsTargetContainerProvided := ed.TargetContainer != "" } pods rd cd script
    simpa only [hcf] using this
  · have hpar : env.toLower ed.Sequence = "parallel" := by
      rcases hmode with h | h
      · exact absurd h hser
      · exact h
    simp only [hser, hpar, ↓reduceIte]
    have := parallelMode_containers env
      { ed with IsTargetContainerProvided := ed.TargetContainer != "" } pods rd cd script
    simpa only [hcf] using this

/-- C6 (amended) on the pods `app-1`, `app-0` in serial mode. -/
theorem stress_container_resolved_per_target_witness :
    stressStarts (experimentMemory (podListEnv [appPod1, appPod0]) sampleDetails noProbes
      sampleChaos []).1 <+:
        [appPod1, appPod0].map (fun p =>
          (if sampleDetails.TargetContainer = "" then firstContainerName p
            else sampleDetails.TargetContainer, p.Name, p.Namespace)) :=
  stress_container_resolved_per_target (podListEnv [appPod1, appPod0]) sampleDetails noProbes
    sampleChaos [] [appPod1, appPod0] (by decide) rfl (Or.inl (by decide))

/-! ## C5 -/

/-- C5: `killStressMemoryParallel` calls `killStressMemorySerial` on every pod of the
list, in list order and whatever the earlier calls returned (its effects are the
effects of these calls, one kill command per pod); it returns nil exactly when every
call returned nil, and otherwise the `PreserveError` whose text is "[" followed by
the texts of the individual errors joined by "," in list order followed by "]";
the pods it marks "reverted" are exactly those whose kill command succeeded. -/
theorem killStressMemoryParallel_reverts_all (env : Env) (n : Nat) (containerName : String)
    (pods : List Pod) (memFreeCmd : String) :
    (killStressMemoryParallel env n containerName pods memFreeCmd).1 =
        ((individualReverts env n containerName pods memFreeCmd).map Prod.fst).flatten ∧
    killExecs (killStressMemoryParallel env n containerName pods memFreeCmd).1 =
        pods.map (fun p => (containerName, p.Name, p.Namespace)) ∧
    ((killStressMemoryParallel env n containerName pods memFreeCmd).2 = none ↔
        ∀ call ∈ individualReverts env n containerName pods memFreeCmd, call.2 = none) ∧
    (killStressMemoryParallel env n containerName pods memFreeCmd).2 =
        (if (individualReverts env n containerName pods memFreeCmd).all
            (fun call => call.2.isNone) then none
         else some (GoError.PreserveError ("[" ++ ",".intercalate
          (((individualReverts env n containerName pods memFreeCmd).filterMap Prod.snd).map
            env.errorText) ++ "]"))) ∧
    revertedTargets (killStressMemoryParallel env n containerName pods memFreeCmd).1 =
        ((pods.enumFrom n).filter fun ip => !(env.exec ip.1).failed).map fun ip => ip.2.Name := by
  refine ⟨killParallel_fst .., ?_, ?_, killParallel_snd .., ?_⟩
  · rw [killParallel_fst, killExecs_individualReverts]
  · rw [killParallel_snd]
    by_cases hall : (individualReverts env n containerName pods memFreeCmd).all
        (fun call => call.2.isNone) = true
    · simp only [hall, ↓reduceIte, true_iff]
      intro call hc
      have := (List.all_eq_true.1 hall) call hc
      simpa [Option.isNone_iff_eq_none] using this
    · simp only [hall]
      simp only [Bool.false_eq_true, ↓reduceIte, reduceCtorEq, false_iff]
      intro h
      apply hall
      rw [List.all_eq_true]
      intro call hc
      simp [h call hc]
  · rw [killParallel_fst, revertedTargets_individualReverts]

end MemoryHogExec
